import Mathlib

/-!
Verification of the Infineon TPM Firmware Update driver (IFXTPMUpdate).

Shallow embedding of the driver's control flow and of the MicroTss
marshalling layer.  The driver sources (FirmwareManagement.c,
AdapterInformation.c, TPM_GetTestResult.c, TPM2_VendorMarshal.c,
Crypt.c/TpmIO.c, Platform.c) are embedded function by function; results of
the lower FirmwareUpdate_* library calls, of the transport, and of
capability queries are passed in as explicit environment values, so each
embedded function is a pure function of its arguments and environment.
Machine integers are modelled as `Nat` (all values involved are bounded by
construction; no arithmetic below overflows the C types' ranges).
-/

namespace IFXTPMUpdate

/-! ## Constants

EFI status codes (UEFI specification; `EFI_ERROR` tests the high bit of
the 64-bit status word) and the driver's own `EFI_IFXTPM_*` codes, whose
values are taken verbatim from `UEFI\IFXTPMUpdate.h`. -/

def EFI_SUCCESS : Nat := 0
def EFI_INVALID_PARAMETER : Nat := 0x8000000000000002
def EFI_UNSUPPORTED : Nat := 0x8000000000000003
def EFI_BUFFER_TOO_SMALL : Nat := 0x8000000000000005
def EFI_DEVICE_ERROR : Nat := 0x8000000000000007
def EFI_OUT_OF_RESOURCES : Nat := 0x8000000000000009

def EFI_IFXTPM_CORRUPT_FIRMWARE_IMAGE : Nat := 0xE029000000006001
def EFI_IFXTPM_WRONG_FIRMWARE_IMAGE : Nat := 0xE029000000006002
def EFI_IFXTPM_TPM20_INVALID_POLICYSESSION : Nat := 0xE029000000006003
def EFI_IFXTPM_TPM12_DEFERREDPP_REQUIRED : Nat := 0xE029000000006004
def EFI_IFXTPM_TPM12_MISSING_OWNERAUTH : Nat := 0xE029000000006005
def EFI_IFXTPM_FIRMWARE_UPDATE_FAILED : Nat := 0xE029000000006006
def EFI_IFXTPM_UNSUPPORTED_VENDOR : Nat := 0xE029000000006007
def EFI_IFXTPM_NO_MORE_UPDATES : Nat := 0xE029000000006008
def EFI_IFXTPM_TPM12_INVALID_OWNERAUTH : Nat := 0xE029000000006009
def EFI_IFXTPM_TPM12_NO_OWNER : Nat := 0xE02900000000600A
def EFI_IFXTPM_RESTART_REQUIRED : Nat := 0xE02900000000600B
def EFI_IFXTPM_TPM12_DA_ACTIVE : Nat := 0xE02900000000600C
def EFI_IFXTPM_NEWER_DRIVER_REQUIRED : Nat := 0xE02900000000600D
def EFI_IFXTPM_UNSUPPORTED_CHIP : Nat := 0xE02900000000600E
def EFI_IFXTPM_TPM20_POLICYSESSION_NOT_LOADED : Nat := 0xE02900000000600F
def EFI_IFXTPM_TPM20_POLICY_HANDLE_OUT_OF_RANGE : Nat := 0xE029000000006010
def EFI_IFXTPM_TPM12_DEACTIVATED : Nat := 0xE029000000006011
def EFI_IFXTPM_TPM12_DISABLED : Nat := 0xE029000000006012
def EFI_IFXTPM_TPM20_FAILURE_MODE : Nat := 0xE029000000006013
def EFI_IFXTPM_TPM12_FAILED_SELFTEST : Nat := 0xE029000000006014
def EFI_IFXTPM_TPM20_PLATFORMAUTH_NOT_EMPTYBUFFER : Nat := 0xE029000000006015
def EFI_IFXTPM_TPM20_PLATFORMHIERARCHY_DISABLED : Nat := 0xE029000000006016
def EFI_IFXTPM_NEWER_FW_IMAGE_REQUIRED : Nat := 0xE029000000006017

/-- `EFI_ERROR(Status)`: the status word is an error iff its sign bit
(bit 63) is set. -/
def EFI_ERROR (s : Nat) : Bool := 2 ^ 63 ≤ s

/-! Firmware-management image attributes.  The `IMAGE_ATTRIBUTE_IFXTPM_*`
and `IMAGE_UPDATABLE_IFXTPM_*` values are verbatim from
`UEFI\IFXTPMUpdate.h`; the unprefixed ones are the standard UEFI
firmware-management values. -/

def IMAGE_ATTRIBUTE_IMAGE_UPDATABLE : Nat := 0x1
def IMAGE_ATTRIBUTE_RESET_REQUIRED : Nat := 0x2
def IMAGE_ATTRIBUTE_IN_USE : Nat := 0x8
def IMAGE_ATTRIBUTE_IFXTPM_LAST_UPDATE : Nat := 0x0000100000000000
def IMAGE_ATTRIBUTE_IFXTPM_HAS_OWNER : Nat := 0x0000200000000000
def IMAGE_ATTRIBUTE_IFXTPM_INVALID_FIRMWARE_MODE : Nat := 0x0000400000000000
def IMAGE_ATTRIBUTE_IFXTPM_NON_OPERATIONAL_MODE : Nat := 0x0000400000000000
def IMAGE_ATTRIBUTE_IFXTPM_2_0 : Nat := 0x0000800000000000
def IMAGE_ATTRIBUTE_IFXTPM_1_2 : Nat := 0x0001000000000000
def IMAGE_ATTRIBUTE_IFXTPM_RESTART_REQUIRED : Nat := 0x0002000000000000
def IMAGE_ATTRIBUTE_IFXTPM_DEFERREDPP : Nat := 0x0004000000000000

def IMAGE_UPDATABLE_VALID : Nat := 0x1
def IMAGE_UPDATABLE_INVALID : Nat := 0x2
def IMAGE_UPDATABLE_INVALID_TYPE : Nat := 0x4
def IMAGE_UPDATABLE_IFXTPM_NEWER_IMAGE_REVISION_REQUIRED : Nat := 0x02000000
def IMAGE_UPDATABLE_IFXTPM_FIRMWARE_RECOVERY : Nat := 0x04000000
def IMAGE_UPDATABLE_IFXTPM_SAME_VERSION : Nat := 0x08000000
def IMAGE_UPDATABLE_IFXTPM_DEVICETYPE_CHANGE : Nat := 0x10000000
def IMAGE_UPDATABLE_IFXTPM_INVALID_IMAGE_CORRUPTED : Nat := 0x20000000
def IMAGE_UPDATABLE_IFXTPM_NEWER_DRIVER_REQUIRED : Nat := 0x40000000
def IMAGE_UPDATABLE_IFXTPM_FACTORY_DEFAULTS : Nat := 0x80000000

/-- The sentinel for a remaining-update counter that could not be
queried; the source annotates it as `// -1`, i.e. `(unsigned int)-1`. -/
def REMAINING_UPDATES_UNAVAILABLE : Nat := 0xFFFFFFFF

/-! Internal `RC_*` return codes of the tool layer.

Modelled from the spec: the numeric values of the `RC_*` codes are
declared in a header of this repository that is not among the provided
sources; only their names and the spec's error taxonomy (§7) are
available.  They are modelled as pairwise distinct non-zero values
outside the module-reported band `RC_TPM_MASK ||| code`, which is what
the spec requires ("propagate the module-reported result as a distinct
error kind, not conflated with a local decode error"). -/

def RC_SUCCESS : Nat := 0
def RC_E_FAIL : Nat := 0xE0295600
def RC_E_BAD_PARAMETER : Nat := 0xE0295601
def RC_E_BUFFER_TOO_SMALL : Nat := 0xE0295602
def RC_E_NOT_CONNECTED : Nat := 0xE0295603
def RC_E_INTERNAL : Nat := 0xE0295604
def RC_E_NO_IFX_TPM : Nat := 0xE0295605
def RC_E_UNSUPPORTED_CHIP : Nat := 0xE0295606
def RC_E_RESTART_REQUIRED : Nat := 0xE0295607
def RC_E_TPM20_FAILURE_MODE : Nat := 0xE0295608
def RC_E_FW_UPDATE_BLOCKED : Nat := 0xE0295609
def RC_E_WRONG_DECRYPT_KEYS : Nat := 0xE029560A
def RC_E_WRONG_FW_IMAGE : Nat := 0xE029560B
def RC_E_NEWER_TOOL_REQUIRED : Nat := 0xE029560C
def RC_E_NEWER_FW_IMAGE_REQUIRED : Nat := 0xE029560D
def RC_E_CORRUPT_FW_IMAGE : Nat := 0xE029560E
def RC_E_PLATFORM_AUTH_NOT_EMPTY : Nat := 0xE029560F
def RC_E_PLATFORM_HIERARCHY_DISABLED : Nat := 0xE0295610
def RC_E_TPM20_INVALID_POLICY_SESSION : Nat := 0xE0295611
def RC_E_TPM20_POLICY_SESSION_NOT_LOADED : Nat := 0xE0295612
def RC_E_TPM20_POLICY_HANDLE_OUT_OF_RANGE : Nat := 0xE0295613
def RC_E_FIRMWARE_UPDATE_FAILED : Nat := 0xE0295614
def RC_E_TPM12_MISSING_OWNERAUTH : Nat := 0xE0295615
def RC_E_TPM12_DA_ACTIVE : Nat := 0xE0295616
def RC_E_TPM12_INVALID_OWNERAUTH : Nat := 0xE0295617
def RC_E_TPM12_DEFERREDPP_REQUIRED : Nat := 0xE0295618
def RC_E_TPM12_NO_OWNER : Nat := 0xE0295619

/-- Mask combined (bitwise or) with a module-reported response code. -/
def RC_TPM_MASK : Nat := 0xE0280000

/-! TCG TPM1.2 response codes (standard values). -/
def TSS_TPM_RC_SUCCESS : Nat := 0
def TSS_TPM_AUTHFAIL : Nat := 1
def TSS_TPM_DEACTIVATED : Nat := 6
def TSS_TPM_DISABLED : Nat := 7

/-! ## Module state

`TPM_STATE.attribs` bitfield of `FirmwareUpdate.h`, as read by the
driver after `FirmwareUpdate_CalculateState`. -/

structure TpmStateAttribs where
  infineon : Bool
  unsupportedChip : Bool
  tpm12 : Bool
  tpm20 : Bool
  tpm20InFailureMode : Bool
  tpm20emptyPlatformAuth : Bool
  tpm20restartRequired : Bool
  tpm12owner : Bool
  tpm12DeferredPhysicalPresence : Bool
  tpm12FailedSelfTest : Bool
  tpmHasFULoader20 : Bool
  tpmInOperationalMode : Bool
  tpmFirmwareIsValid : Bool
  tpm20OperationMode : Nat
deriving DecidableEq

/-! ## FirmwareUpdate_CheckImage outcome

The driver calls `FirmwareUpdate_CheckImage(image, size, &fValid, &info,
&errorDetails)`.  Its outcome, as consumed by the driver, is either a
non-`RC_SUCCESS` return value, or `RC_SUCCESS` together with the
error-details word and the new-firmware info bitfield. -/

structure NewTpmFirmwareInfo where
  deviceTypeChange : Bool
  factoryDefaults : Bool
  fwUpdateSameVersion : Bool
  fwRecovery : Bool
deriving DecidableEq

inductive CheckImageOutcome where
  /-- `FirmwareUpdate_CheckImage` itself failed with code `rc ≠ RC_SUCCESS`. -/
  | callError (rc : Nat)
  /-- `FirmwareUpdate_CheckImage` returned `RC_SUCCESS`; `errorDetails`
  carries the verdict (`RC_SUCCESS` = image applicable). -/
  | checked (errorDetails : Nat) (info : NewTpmFirmwareInfo)
deriving DecidableEq

/-- Mapping of a failing `FirmwareUpdate_CheckImage` return value to an
EFI status, from the first `switch` of
`IFXTPMUpdate_FirmwareManagement_CheckImageInternal`. -/
def mapCheckImageCallError (rc : Nat) : Nat :=
  if rc = RC_E_RESTART_REQUIRED then EFI_IFXTPM_RESTART_REQUIRED
  else if rc = RC_E_BAD_PARAMETER then EFI_INVALID_PARAMETER
  else if rc = RC_E_NO_IFX_TPM then EFI_IFXTPM_UNSUPPORTED_VENDOR
  else if rc = RC_E_UNSUPPORTED_CHIP then EFI_IFXTPM_UNSUPPORTED_CHIP
  else if rc = RC_TPM_MASK ||| TSS_TPM_DEACTIVATED then EFI_IFXTPM_TPM12_DEACTIVATED
  else if rc = RC_TPM_MASK ||| TSS_TPM_DISABLED then EFI_IFXTPM_TPM12_DISABLED
  else if rc = RC_E_TPM20_FAILURE_MODE then EFI_IFXTPM_TPM20_FAILURE_MODE
  else EFI_DEVICE_ERROR

/-- Mapping of the error-details word to the `(imageUpdatable, efiStatus)`
pair, from the second `switch` of
`IFXTPMUpdate_FirmwareManagement_CheckImageInternal`. -/
def mapCheckImageDetails (errorDetails : Nat) (info : NewTpmFirmwareInfo) : Nat × Nat :=
  if errorDetails = RC_SUCCESS then
    let upd :=
      (if info.deviceTypeChange then IMAGE_UPDATABLE_IFXTPM_DEVICETYPE_CHANGE else 0) |||
      (if info.factoryDefaults then IMAGE_UPDATABLE_IFXTPM_FACTORY_DEFAULTS else 0) |||
      (if info.fwUpdateSameVersion then IMAGE_UPDATABLE_IFXTPM_SAME_VERSION else 0) |||
      (if info.fwRecovery then IMAGE_UPDATABLE_IFXTPM_FIRMWARE_RECOVERY else 0) |||
      IMAGE_UPDATABLE_VALID
    (upd, EFI_SUCCESS)
  else if errorDetails = RC_E_FW_UPDATE_BLOCKED then
    (IMAGE_UPDATABLE_INVALID, EFI_IFXTPM_NO_MORE_UPDATES)
  else if errorDetails = RC_E_WRONG_DECRYPT_KEYS ∨ errorDetails = RC_E_WRONG_FW_IMAGE then
    (IMAGE_UPDATABLE_INVALID_TYPE, EFI_IFXTPM_WRONG_FIRMWARE_IMAGE)
  else if errorDetails = RC_E_NEWER_TOOL_REQUIRED then
    (IMAGE_UPDATABLE_IFXTPM_NEWER_DRIVER_REQUIRED, EFI_IFXTPM_NEWER_DRIVER_REQUIRED)
  else if errorDetails = RC_E_NEWER_FW_IMAGE_REQUIRED then
    (IMAGE_UPDATABLE_IFXTPM_NEWER_IMAGE_REVISION_REQUIRED, EFI_IFXTPM_NEWER_FW_IMAGE_REQUIRED)
  else
    (IMAGE_UPDATABLE_IFXTPM_INVALID_IMAGE_CORRUPTED, EFI_IFXTPM_CORRUPT_FIRMWARE_IMAGE)

/-- Result of `IFXTPMUpdate_FirmwareManagement_CheckImageInternal`:
the returned EFI status and the value written through the optional
`PpunImageUpdatable` pointer (`none` if nothing was written). -/
structure CheckImageInternalOut where
  status : Nat
  imageUpdatable : Option Nat
deriving DecidableEq

/-- `IFXTPMUpdate_FirmwareManagement_CheckImageInternal` (FirmwareManagement.c).
`imageNull` models `PpImage == NULL`, `imageSize` models `PullImageSize`,
`outPtr` models `PpunImageUpdatable != NULL`, and `outcome` is the result
of the `FirmwareUpdate_CheckImage` call. -/
def checkImageInternal (imageNull : Bool) (imageSize : Nat) (outPtr : Bool)
    (outcome : CheckImageOutcome) : CheckImageInternalOut :=
  if imageNull ∨ imageSize = 0 then
    ⟨EFI_INVALID_PARAMETER, none⟩
  else
    match outcome with
    | .callError rc => ⟨mapCheckImageCallError rc, none⟩
    | .checked errorDetails info =>
        let (upd, status) := mapCheckImageDetails errorDetails info
        if outPtr then ⟨EFI_SUCCESS, some upd⟩ else ⟨status, none⟩

/-! ## SetImage (FirmwareManagement.c)

`IFXTPMUpdate_FirmwareManagement_SetImage` is embedded as a pure function
of its arguments and of an environment carrying the results of the calls
it makes (TPM access, `FirmwareUpdate_CalculateState`,
`FirmwareUpdate_CheckImage`, `FirmwareUpdate_AbandonUpdate`,
`FirmwareUpdate_PrepareTPM20Policy`, `FirmwareUpdate_UpdateImage`).
Besides the returned status it produces the ordered trace of those
calls, so ordering properties ("validation before update") are
statable. -/

inductive Ev where
  /-- `InitializeTpmAccess` -/
  | initAccess
  /-- `FirmwareUpdate_CalculateState` -/
  | calcState
  /-- `FirmwareUpdate_AbandonUpdate` (sends the abandon command) -/
  | abandon
  /-- `IFXTPMUpdate_FirmwareManagement_CheckImageInternal` /
  `FirmwareUpdate_CheckImage` (image validation) -/
  | checkImage
  /-- `FirmwareUpdate_PrepareTPM20Policy` -/
  | prepPolicy
  /-- `FirmwareUpdate_UpdateImage` (manifest/data/finalize sequence) -/
  | updateImage
deriving DecidableEq

/-- `a` occurs in `l`, `b` occurs in `l`, and the first occurrence of `a`
is strictly before the first occurrence of `b`. -/
def occursBefore (l : List Ev) (a b : Ev) : Prop :=
  a ∈ l ∧ b ∈ l ∧ l.indexOf a < l.indexOf b

instance (l : List Ev) (a b : Ev) : Decidable (occursBefore l a b) := by
  unfold occursBefore; infer_instance

/-- Environment of one `SetImage` call: results of the external calls it
may perform, plus the relevant driver-private state
(`g_pPrivateData->unSessionHandle`, `->fOwnedUpdate`). -/
structure SetImageEnv where
  /-- EFI status returned by `InitializeTpmAccess`. -/
  initAccess : Nat
  /-- `FirmwareUpdate_CalculateState(TRUE, ·)`: `none` models a
  non-`RC_SUCCESS` return, `some st` the computed attribute set. -/
  calcState : Option TpmStateAttribs
  /-- Outcome of `FirmwareUpdate_CheckImage` on the supplied image. -/
  checkImage : CheckImageOutcome
  /-- Return code of `FirmwareUpdate_AbandonUpdate`. -/
  abandonRC : Nat
  /-- Return code of `FirmwareUpdate_PrepareTPM20Policy` (on success the
  created policy-session handle is stored; the handle value itself is
  irrelevant to the claims). -/
  prepPolicyRC : Nat
  /-- Return code of `FirmwareUpdate_UpdateImage`. -/
  updateImageRC : Nat
  /-- `g_pPrivateData->unSessionHandle` at entry. -/
  sessionHandle : Nat
deriving DecidableEq

structure SetImageOut where
  status : Nat
  trace : List Ev
deriving DecidableEq

/-- Mapping of the `FirmwareUpdate_PrepareTPM20Policy` return code,
from `IFXTPMUpdate_FirmwareManagement_SetImage`. -/
def mapPrepPolicyRC (rc : Nat) : Nat :=
  if rc = RC_SUCCESS then EFI_SUCCESS
  else if rc = RC_E_PLATFORM_AUTH_NOT_EMPTY then EFI_IFXTPM_TPM20_PLATFORMAUTH_NOT_EMPTYBUFFER
  else if rc = RC_E_PLATFORM_HIERARCHY_DISABLED then EFI_IFXTPM_TPM20_PLATFORMHIERARCHY_DISABLED
  else EFI_DEVICE_ERROR

/-- Mapping of the `FirmwareUpdate_UpdateImage` return code, from the
final `switch` of `IFXTPMUpdate_FirmwareManagement_SetImage`. -/
def mapUpdateImageRC (rc : Nat) : Nat :=
  if rc = RC_SUCCESS then EFI_SUCCESS
  else if rc = RC_E_BAD_PARAMETER then EFI_INVALID_PARAMETER
  else if rc = RC_E_TPM20_INVALID_POLICY_SESSION then EFI_IFXTPM_TPM20_INVALID_POLICYSESSION
  else if rc = RC_E_TPM20_POLICY_SESSION_NOT_LOADED then EFI_IFXTPM_TPM20_POLICYSESSION_NOT_LOADED
  else if rc = RC_E_TPM20_POLICY_HANDLE_OUT_OF_RANGE then EFI_IFXTPM_TPM20_POLICY_HANDLE_OUT_OF_RANGE
  else if rc = RC_E_FIRMWARE_UPDATE_FAILED then EFI_IFXTPM_FIRMWARE_UPDATE_FAILED
  else if rc = RC_E_CORRUPT_FW_IMAGE then EFI_IFXTPM_CORRUPT_FIRMWARE_IMAGE
  else if rc = RC_E_TPM12_MISSING_OWNERAUTH then EFI_IFXTPM_TPM12_MISSING_OWNERAUTH
  else if rc = RC_E_TPM12_DA_ACTIVE then EFI_IFXTPM_TPM12_DA_ACTIVE
  else if rc = RC_E_TPM12_INVALID_OWNERAUTH then EFI_IFXTPM_TPM12_INVALID_OWNERAUTH
  else if rc = RC_E_TPM12_DEFERREDPP_REQUIRED then EFI_IFXTPM_TPM12_DEFERREDPP_REQUIRED
  else if rc = RC_E_TPM12_NO_OWNER then EFI_IFXTPM_TPM12_NO_OWNER
  else EFI_DEVICE_ERROR

/-- The update path of `SetImage` after a successful image check:
default-policy preparation (only when no session handle is set) followed
by the `FirmwareUpdate_UpdateImage` call. -/
def setImageUpdatePhase (env : SetImageEnv) (pre : List Ev) : SetImageOut :=
  if env.sessionHandle = 0 then
    match env.calcState with
    | none => ⟨EFI_DEVICE_ERROR, pre ++ [.calcState]⟩
    | some st =>
        if st.tpm20 ∧ st.tpmInOperationalMode then
          let s := mapPrepPolicyRC env.prepPolicyRC
          if EFI_ERROR s then
            ⟨s, pre ++ [.calcState, .prepPolicy]⟩
          else
            ⟨mapUpdateImageRC env.updateImageRC,
              pre ++ [.calcState, .prepPolicy, .updateImage]⟩
        else
          ⟨mapUpdateImageRC env.updateImageRC, pre ++ [.calcState, .updateImage]⟩
  else
    ⟨mapUpdateImageRC env.updateImageRC, pre ++ [.updateImage]⟩

/-- `IFXTPMUpdate_FirmwareManagement_SetImage` (FirmwareManagement.c).
`thisNull` models `PpThis == NULL`, `vendorCodeNull` models
`PpVendorCode == NULL` (which is required), `imageNull` models
`PpImage == NULL`. -/
def setImage (thisNull : Bool) (imageIndex : Nat) (imageNull : Bool)
    (imageSize : Nat) (vendorCodeNull : Bool) (env : SetImageEnv) : SetImageOut :=
  if thisNull ∨ imageIndex ≠ 1 ∨ ¬vendorCodeNull then
    ⟨EFI_INVALID_PARAMETER, []⟩
  else if EFI_ERROR env.initAccess then
    ⟨env.initAccess, [.initAccess]⟩
  else if imageNull ∧ imageSize = 0 then
    -- abandon of firmware update or recovery mode requested
    match env.calcState with
    | none => ⟨EFI_DEVICE_ERROR, [.initAccess, .calcState]⟩
    | some st =>
        if st.tpmHasFULoader20 ∧
            (st.tpm20OperationMode = 0x01 ∨ st.tpm20OperationMode = 0x81) then
          if env.abandonRC = RC_SUCCESS then
            ⟨EFI_SUCCESS, [.initAccess, .calcState, .abandon]⟩
          else
            ⟨EFI_DEVICE_ERROR, [.initAccess, .calcState, .abandon]⟩
        else
          ⟨EFI_INVALID_PARAMETER, [.initAccess, .calcState]⟩
  else if imageNull ∨ imageSize = 0 then
    ⟨EFI_INVALID_PARAMETER, [.initAccess]⟩
  else
    let chk := checkImageInternal imageNull imageSize false env.checkImage
    if EFI_ERROR chk.status then
      ⟨chk.status, [.initAccess, .checkImage]⟩
    else
      setImageUpdatePhase env [.initAccess, .checkImage]

/-! ## Basic facts about the CheckImageInternal mappings -/

theorem EFI_ERROR_mapCheckImageCallError (rc : Nat) :
    EFI_ERROR (mapCheckImageCallError rc) = true := by
  unfold mapCheckImageCallError
  split_ifs <;> decide

theorem mapCheckImageDetails_snd_success (i : NewTpmFirmwareInfo) :
    (mapCheckImageDetails RC_SUCCESS i).2 = EFI_SUCCESS := by
  unfold mapCheckImageDetails
  rw [if_pos rfl]

theorem mapCheckImageDetails_snd_not_success (d : Nat) (i : NewTpmFirmwareInfo)
    (hd : d ≠ RC_SUCCESS) : EFI_ERROR (mapCheckImageDetails d i).2 = true := by
  unfold mapCheckImageDetails
  rw [if_neg hd]
  split_ifs <;> decide

/-- If `CheckImageInternal` (called without the optional out-pointer, as
`SetImage` does) does not signal an error, then the underlying
`FirmwareUpdate_CheckImage` call succeeded with the "applicable"
error-details word `RC_SUCCESS`. -/
theorem checkImageInternal_not_error (imageNull : Bool) (imageSize : Nat)
    (outcome : CheckImageOutcome)
    (h : EFI_ERROR (checkImageInternal imageNull imageSize false outcome).status = false) :
    ∃ info, outcome = CheckImageOutcome.checked RC_SUCCESS info := by
  unfold checkImageInternal at h
  by_cases h0 : imageNull = true ∨ imageSize = 0
  · rw [if_pos h0] at h
    exact absurd h (by decide)
  · rw [if_neg h0] at h
    cases outcome with
    | callError rc =>
        dsimp only at h
        rw [EFI_ERROR_mapCheckImageCallError rc] at h
        exact absurd h (by decide)
    | checked d info =>
        by_cases hd : d = RC_SUCCESS
        · exact ⟨info, by rw [hd]⟩
        · dsimp only at h
          rcases hms : mapCheckImageDetails d info with ⟨u, s⟩
          rw [hms] at h
          rw [if_neg (by decide : ¬(false = true))] at h
          dsimp only at h
          have hs : EFI_ERROR s = true := by
            have := mapCheckImageDetails_snd_not_success d info hd
            rw [hms] at this
            exact this
          rw [hs] at h
          exact absurd h (by decide)

/-- In the update phase, if `FirmwareUpdate_UpdateImage` is reached, the
image-check event precedes it in the trace. -/
theorem setImageUpdatePhase_check_before_update (env : SetImageEnv)
    (h : Ev.updateImage ∈ (setImageUpdatePhase env [Ev.initAccess, Ev.checkImage]).trace) :
    occursBefore (setImageUpdatePhase env [Ev.initAccess, Ev.checkImage]).trace
      Ev.checkImage Ev.updateImage := by
  unfold setImageUpdatePhase at h ⊢
  by_cases hs : env.sessionHandle = 0
  · rw [if_pos hs] at h ⊢
    rcases hcs : env.calcState with _ | st
    · rw [hcs] at h
      simp at h
    · rw [hcs] at h
      dsimp only at h ⊢
      by_cases h20 : st.tpm20 = true ∧ st.tpmInOperationalMode = true
      · rw [if_pos h20] at h ⊢
        by_cases he : EFI_ERROR (mapPrepPolicyRC env.prepPolicyRC) = true
        · rw [if_pos he] at h
          simp at h
        · rw [if_neg he] at h ⊢
          dsimp only
          decide
      · rw [if_neg h20] at h ⊢
        dsimp only
        decide
  · rw [if_neg hs] at h ⊢
    dsimp only
    decide

/-- C1.  If `SetImage` reaches `FirmwareUpdate_UpdateImage` then the
image validation returned the applicable verdict, and the validation
event strictly precedes the update event in the call trace (so on any
validation error `FirmwareUpdate_UpdateImage` is never called). -/
theorem setImage_validates_before_update (thisNull : Bool) (imageIndex : Nat)
    (imageNull : Bool) (imageSize : Nat) (vendorCodeNull : Bool) (env : SetImageEnv)
    (h : Ev.updateImage ∈
      (setImage thisNull imageIndex imageNull imageSize vendorCodeNull env).trace) :
    (∃ info, env.checkImage = CheckImageOutcome.checked RC_SUCCESS info) ∧
    occursBefore (setImage thisNull imageIndex imageNull imageSize vendorCodeNull env).trace
      Ev.checkImage Ev.updateImage := by
  unfold setImage at h ⊢
  by_cases c1 : thisNull = true ∨ imageIndex ≠ 1 ∨ ¬vendorCodeNull = true
  · rw [if_pos c1] at h
    simp at h
  · rw [if_neg c1] at h ⊢
    by_cases c2 : EFI_ERROR env.initAccess = true
    · rw [if_pos c2] at h
      simp at h
    · rw [if_neg c2] at h ⊢
      by_cases c3 : imageNull = true ∧ imageSize = 0
      · rw [if_pos c3] at h
        rcases hcs : env.calcState with _ | st
        · rw [hcs] at h
          simp at h
        · rw [hcs] at h
          dsimp only at h
          by_cases c3a : st.tpmHasFULoader20 = true ∧
              (st.tpm20OperationMode = 0x01 ∨ st.tpm20OperationMode = 0x81)
          · rw [if_pos c3a] at h
            by_cases c3b : env.abandonRC = RC_SUCCESS
            · rw [if_pos c3b] at h
              simp at h
            · rw [if_neg c3b] at h
              simp at h
          · rw [if_neg c3a] at h
            simp at h
      · rw [if_neg c3] at h ⊢
        by_cases c4 : imageNull = true ∨ imageSize = 0
        · rw [if_pos c4] at h
          simp at h
        · rw [if_neg c4] at h ⊢
          dsimp only at h ⊢
          by_cases c5 : EFI_ERROR
              (checkImageInternal imageNull imageSize false env.checkImage).status = true
          · rw [if_pos c5] at h
            simp at h
          · rw [if_neg c5] at h ⊢
            refine ⟨checkImageInternal_not_error imageNull imageSize env.checkImage
              (Bool.eq_false_iff.mpr c5), ?_⟩
            exact setImageUpdatePhase_check_before_update env h

/-- Witness for C1: a concrete run in which the update is reached. -/
theorem setImage_validates_before_update_witness :
    (∃ info, (SetImageEnv.mk EFI_SUCCESS none
        (CheckImageOutcome.checked RC_SUCCESS ⟨false, false, false, false⟩)
        RC_SUCCESS RC_SUCCESS RC_SUCCESS 1).checkImage =
        CheckImageOutcome.checked RC_SUCCESS info) ∧
    occursBefore (setImage false 1 false 4 true (SetImageEnv.mk EFI_SUCCESS none
        (CheckImageOutcome.checked RC_SUCCESS ⟨false, false, false, false⟩)
        RC_SUCCESS RC_SUCCESS RC_SUCCESS 1)).trace Ev.checkImage Ev.updateImage :=
  setImage_validates_before_update false 1 false 4 true
    (SetImageEnv.mk EFI_SUCCESS none
      (CheckImageOutcome.checked RC_SUCCESS ⟨false, false, false, false⟩)
      RC_SUCCESS RC_SUCCESS RC_SUCCESS 1) (by decide)

/-- C5.  An abandon request (`SetImage` with a NULL image and zero size)
issues the abandon command iff the module has the newer update loader
and its operation mode byte is `0x01` or `0x81`; in every other module
state the request returns `EFI_INVALID_PARAMETER` and no abandon command
is sent. -/
theorem setImage_abandon_only_in_update_mode (env : SetImageEnv) (st : TpmStateAttribs)
    (hinit : EFI_ERROR env.initAccess = false) (hcs : env.calcState = some st) :
    (Ev.abandon ∈ (setImage false 1 true 0 true env).trace ↔
      st.tpmHasFULoader20 = true ∧
        (st.tpm20OperationMode = 0x01 ∨ st.tpm20OperationMode = 0x81)) ∧
    (¬(st.tpmHasFULoader20 = true ∧
        (st.tpm20OperationMode = 0x01 ∨ st.tpm20OperationMode = 0x81)) →
      (setImage false 1 true 0 true env).status = EFI_INVALID_PARAMETER) := by
  unfold setImage
  rw [if_neg (by decide), if_neg (by simp [hinit]), if_pos (by decide), hcs]
  dsimp only
  by_cases hcond : st.tpmHasFULoader20 = true ∧
      (st.tpm20OperationMode = 0x01 ∨ st.tpm20OperationMode = 0x81)
  · rw [if_pos hcond]
    by_cases hab : env.abandonRC = RC_SUCCESS
    · rw [if_pos hab]
      exact ⟨by simp [hcond], fun hc => absurd hcond hc⟩
    · rw [if_neg hab]
      exact ⟨by simp [hcond], fun hc => absurd hcond hc⟩
  · rw [if_neg hcond]
    refine ⟨?_, fun _ => rfl⟩
    simp [hcond]

/-- A concrete module state: TPM2.0 with the newer update loader, in
firmware-update mode (operation mode byte `0x01`). -/
def stFuMode : TpmStateAttribs :=
  TpmStateAttribs.mk true false false true false true false false false false
    true false true 0x01

/-- A concrete abandon-request environment built on `stFuMode`. -/
def envAbandon : SetImageEnv :=
  SetImageEnv.mk EFI_SUCCESS (some stFuMode)
    (CheckImageOutcome.callError RC_E_FAIL) RC_SUCCESS RC_SUCCESS RC_SUCCESS 0

/-- Witness for C5: with the module in firmware-update mode (operation
mode `0x01`) and the newer loader, the abandon command is issued. -/
theorem setImage_abandon_only_in_update_mode_witness :
    Ev.abandon ∈ (setImage false 1 true 0 true envAbandon).trace :=
  ((setImage_abandon_only_in_update_mode envAbandon stFuMode (by decide) rfl).1).mpr
    (by decide)

/-! ## FirmwareUpdate_CheckImage (spec-modelled) -/

/-- Abstract evaluation of one firmware image against one module state,
the inputs to the image-validation decision. -/
structure FwImageEval where
  /-- Structural parse (bounds checks on every length field) succeeds. -/
  structureOk : Bool
  /-- The container format revision is readable by this engine
  (otherwise a newer driver is required). -/
  driverCompatible : Bool
  /-- The module's own (global) update counter is exhausted. -/
  updateCounterZero : Bool
  /-- The embedded signature verifies against the image payload. -/
  signatureValid : Bool
  /-- The image does not match this module (wrong device / key group). -/
  wrongImage : Bool
  /-- The module requires a newer image revision. -/
  newerImageRequired : Bool
  /-- Applicability flags reported for an applicable image. -/
  info : NewTpmFirmwareInfo
deriving DecidableEq

/-- Modelled from the spec: `FirmwareUpdate_CheckImage` of the
FirmwareUpdate library is not among the provided sources; only its
callers are.  Per spec §4.3 the validator (1) structurally parses the
container rejecting on the first inconsistency, (2) performs the
authenticity check, treating an exhausted module update counter as
terminal regardless of signature validity ("no updates remain"), and
(3) cross-checks applicability.  The outcome is delivered through the
`errorDetails` word consumed by `CheckImageInternal`. -/
def firmwareUpdateCheckImage (e : FwImageEval) : CheckImageOutcome :=
  if e.structureOk = false then CheckImageOutcome.checked RC_E_CORRUPT_FW_IMAGE e.info
  else if e.driverCompatible = false then
    CheckImageOutcome.checked RC_E_NEWER_TOOL_REQUIRED e.info
  else if e.updateCounterZero = true then
    CheckImageOutcome.checked RC_E_FW_UPDATE_BLOCKED e.info
  else if e.signatureValid = false then
    CheckImageOutcome.checked RC_E_CORRUPT_FW_IMAGE e.info
  else if e.wrongImage = true then CheckImageOutcome.checked RC_E_WRONG_FW_IMAGE e.info
  else if e.newerImageRequired = true then
    CheckImageOutcome.checked RC_E_NEWER_FW_IMAGE_REQUIRED e.info
  else CheckImageOutcome.checked RC_SUCCESS e.info

/-- C4.  If the module's update counter is exhausted, image checking
rejects every structurally readable image - in particular one whose
signature verifies - with the "no updates remain" verdict:
`RC_E_FW_UPDATE_BLOCKED` is mapped to `IMAGE_UPDATABLE_INVALID` in the
reported updatable word and to `EFI_IFXTPM_NO_MORE_UPDATES` as status,
never to the "valid" verdict. -/
theorem checkImage_counter_exhausted_blocks (e : FwImageEval) (imageSize : Nat)
    (hsz : imageSize ≠ 0) (hstruct : e.structureOk = true)
    (hdrv : e.driverCompatible = true) (hctr : e.updateCounterZero = true) :
    (checkImageInternal false imageSize true (firmwareUpdateCheckImage e)).imageUpdatable =
      some IMAGE_UPDATABLE_INVALID ∧
    (checkImageInternal false imageSize false (firmwareUpdateCheckImage e)).status =
      EFI_IFXTPM_NO_MORE_UPDATES ∧
    IMAGE_UPDATABLE_INVALID &&& IMAGE_UPDATABLE_VALID = 0 := by
  have hout : firmwareUpdateCheckImage e =
      CheckImageOutcome.checked RC_E_FW_UPDATE_BLOCKED e.info := by
    unfold firmwareUpdateCheckImage
    rw [if_neg (by rw [hstruct]; decide), if_neg (by rw [hdrv]; decide), if_pos hctr]
  have hdet : mapCheckImageDetails RC_E_FW_UPDATE_BLOCKED e.info =
      (IMAGE_UPDATABLE_INVALID, EFI_IFXTPM_NO_MORE_UPDATES) := by
    unfold mapCheckImageDetails
    rw [if_neg (by decide), if_pos rfl]
  refine ⟨?_, ?_, by decide⟩
  · unfold checkImageInternal
    rw [if_neg (by simp [hsz]), hout]
    dsimp only
    rw [hdet]
    rfl
  · unfold checkImageInternal
    rw [if_neg (by simp [hsz]), hout]
    dsimp only
    rw [hdet]
    rfl

/-- Witness for C4: a structurally valid, validly signed image is still
rejected with "no updates remain" when the counter is exhausted. -/
theorem checkImage_counter_exhausted_blocks_witness :
    (checkImageInternal false 16 true (firmwareUpdateCheckImage
      (FwImageEval.mk true true true true false false
        ⟨false, false, false, false⟩))).imageUpdatable = some IMAGE_UPDATABLE_INVALID ∧
    (checkImageInternal false 16 false (firmwareUpdateCheckImage
      (FwImageEval.mk true true true true false false
        ⟨false, false, false, false⟩))).status = EFI_IFXTPM_NO_MORE_UPDATES ∧
    IMAGE_UPDATABLE_INVALID &&& IMAGE_UPDATABLE_VALID = 0 :=
  checkImage_counter_exhausted_blocks
    (FwImageEval.mk true true true true false false ⟨false, false, false, false⟩)
    16 (by decide) rfl rfl rfl

/-! ## SetInformation, TPM2.0 descriptor branch (AdapterInformation.c) -/

structure SetInfoTpm20Env where
  /-- EFI status returned by `InitializeTpmAccess`. -/
  initAccess : Nat
  /-- `FirmwareUpdate_CalculateState(TRUE, ·)`: `none` models a
  non-`RC_SUCCESS` return. -/
  calcState : Option TpmStateAttribs
  /-- `TSS_TPM2_GetCapability(TPM_CAP_HANDLES, TPM_HT_LOADED_SESSION << 24,
  256, ...)`: `none` models a non-`RC_SUCCESS` return, `some l` the list
  of loaded session handles reported by the module. -/
  loadedSessions : Option (List Nat)
deriving DecidableEq

structure SetInfoOut where
  status : Nat
  /-- Value written to `g_pPrivateData->unSessionHandle`
  (`none` = not written). -/
  storedSessionHandle : Option Nat
deriving DecidableEq

/-- `IFXTPMUpdate_AdapterInformation_SetInformation`
(AdapterInformation.c), branch for
`EFI_IFXTPM_FIRMWARE_UPDATE_DESCRIPTOR_TPM20_1_GUID`.  `paramsNull`
models a NULL `PpThis`/`PpInformationType`/`PpInformationBlock`;
`blockSizeOk` models `PullInformationBlockSize ==
sizeof(EFI_IFXTPM_FIRMWARE_UPDATE_DESCRIPTOR_TPM20_1)`; `sessionHandle`
is the descriptor's `SessionHandle` field. -/
def setInformationTpm20 (paramsNull : Bool) (blockSizeOk : Bool)
    (sessionHandle : Nat) (env : SetInfoTpm20Env) : SetInfoOut :=
  if paramsNull then ⟨EFI_INVALID_PARAMETER, none⟩
  else if ¬blockSizeOk then ⟨EFI_INVALID_PARAMETER, none⟩
  else if EFI_ERROR env.initAccess then ⟨env.initAccess, none⟩
  else
    match env.calcState with
    | none => ⟨EFI_DEVICE_ERROR, none⟩
    | some st =>
        if ¬st.infineon then ⟨EFI_IFXTPM_UNSUPPORTED_VENDOR, none⟩
        else if st.unsupportedChip then ⟨EFI_IFXTPM_UNSUPPORTED_CHIP, none⟩
        else if st.tpm20 then
          if st.tpm20InFailureMode then ⟨EFI_IFXTPM_TPM20_FAILURE_MODE, none⟩
          else if sessionHandle = 0 then
            if ¬st.tpm20emptyPlatformAuth then
              ⟨EFI_IFXTPM_TPM20_PLATFORMAUTH_NOT_EMPTYBUFFER, none⟩
            else ⟨EFI_SUCCESS, some 0⟩
          else
            match env.loadedSessions with
            | some l =>
                if sessionHandle ∈ l then ⟨EFI_SUCCESS, some sessionHandle⟩
                else ⟨EFI_IFXTPM_TPM20_POLICYSESSION_NOT_LOADED, none⟩
            | none =>
                -- the capability query failed: the code logs and leaves the
                -- loop with `efiStatus` still holding the (successful)
                -- `InitializeTpmAccess` result, storing nothing
                ⟨env.initAccess, none⟩
        else
          if sessionHandle ≠ 0 then ⟨EFI_INVALID_PARAMETER, none⟩
          else ⟨EFI_SUCCESS, some sessionHandle⟩

/-- A concrete module state: supported Infineon TPM2.0, operational,
not in failure mode, platform authority not the Empty Buffer. -/
def stTpm20NonEmptyAuth : TpmStateAttribs :=
  TpmStateAttribs.mk true false false true false false false false false false
    true true true 0x00

/-- Counterexample for C3.  When the loaded-session capability query
itself fails, `SetInformation` with a non-zero `SessionHandle` neither
validates the handle against any list nor returns
`EFI_IFXTPM_TPM20_POLICYSESSION_NOT_LOADED`: it returns `EFI_SUCCESS`
(the lingering `InitializeTpmAccess` status) without storing the
handle. -/
theorem setInformationTpm20_query_failure_counterexample :
    (setInformationTpm20 false true 0x03000000
      (SetInfoTpm20Env.mk EFI_SUCCESS (some stTpm20NonEmptyAuth) none)).status =
      EFI_SUCCESS ∧
    (setInformationTpm20 false true 0x03000000
      (SetInfoTpm20Env.mk EFI_SUCCESS (some stTpm20NonEmptyAuth) none)).storedSessionHandle =
      none ∧
    EFI_SUCCESS ≠ EFI_IFXTPM_TPM20_POLICYSESSION_NOT_LOADED := by
  decide

/-- C3 (amended: assuming the `TPM_CAP_HANDLES` loaded-session
capability query succeeds).  For a supported TPM2.0 module not in
failure mode: a non-zero `SessionHandle` is accepted (stored, with
`EFI_SUCCESS`) iff it appears in the module's loaded-session list,
otherwise `EFI_IFXTPM_TPM20_POLICYSESSION_NOT_LOADED` is returned; a
zero `SessionHandle` is accepted iff the platform authority is the
Empty Buffer, otherwise
`EFI_IFXTPM_TPM20_PLATFORMAUTH_NOT_EMPTYBUFFER` is returned. -/
theorem setInformationTpm20_session_validation (env : SetInfoTpm20Env)
    (st : TpmStateAttribs) (l : List Nat) (handle : Nat)
    (hinit : EFI_ERROR env.initAccess = false) (hcs : env.calcState = some st)
    (hvendor : st.infineon = true) (hchip : st.unsupportedChip = false)
    (h20 : st.tpm20 = true) (hfail : st.tpm20InFailureMode = false)
    (hl : env.loadedSessions = some l) :
    (handle ≠ 0 →
      (handle ∈ l →
        setInformationTpm20 false true handle env = ⟨EFI_SUCCESS, some handle⟩) ∧
      (handle ∉ l →
        setInformationTpm20 false true handle env =
          ⟨EFI_IFXTPM_TPM20_POLICYSESSION_NOT_LOADED, none⟩)) ∧
    (handle = 0 →
      (st.tpm20emptyPlatformAuth = true →
        setInformationTpm20 false true handle env = ⟨EFI_SUCCESS, some 0⟩) ∧
      (st.tpm20emptyPlatformAuth = false →
        setInformationTpm20 false true handle env =
          ⟨EFI_IFXTPM_TPM20_PLATFORMAUTH_NOT_EMPTYBUFFER, none⟩)) := by
  unfold setInformationTpm20
  rw [if_neg (by decide), if_neg (by decide), if_neg (by simp [hinit]), hcs]
  dsimp only
  rw [if_neg (by simp [hvendor]), if_neg (by simp [hchip]), if_pos h20,
    if_neg (by simp [hfail])]
  constructor
  · intro hnz
    rw [if_neg hnz, hl]
    dsimp only
    constructor
    · intro hmem
      rw [if_pos hmem]
    · intro hmem
      rw [if_neg hmem]
  · intro hz
    subst hz
    rw [if_pos rfl]
    constructor
    · intro hauth
      rw [if_neg (by simp [hauth])]
    · intro hauth
      rw [if_pos (by simp [hauth])]

/-- A concrete module state: supported Infineon TPM2.0, operational,
platform authority the Empty Buffer. -/
def stTpm20EmptyAuth : TpmStateAttribs :=
  TpmStateAttribs.mk true false false true false true false false false false
    true true true 0x00

/-- Witness for the amended C3: with loaded-session list
`[0x03000001]`, the handle `0x03000001` is accepted and the handle
`0x03000002` is rejected with the dedicated error. -/
theorem setInformationTpm20_session_validation_witness :
    setInformationTpm20 false true 0x03000001
      (SetInfoTpm20Env.mk EFI_SUCCESS (some stTpm20EmptyAuth) (some [0x03000001])) =
      ⟨EFI_SUCCESS, some 0x03000001⟩ :=
  ((setInformationTpm20_session_validation
      (SetInfoTpm20Env.mk EFI_SUCCESS (some stTpm20EmptyAuth) (some [0x03000001]))
      stTpm20EmptyAuth [0x03000001] 0x03000001
      (by decide) rfl rfl rfl rfl rfl rfl).1 (by decide)).1 (by decide)

/-! ## GetInformationCounters (AdapterInformation.c) -/

structure CountersEnv where
  /-- EFI status returned by `InitializeTpmAccess`. -/
  initAccess : Nat
  /-- `FirmwareUpdate_CalculateState(FALSE, ·)`. -/
  calcState : Option TpmStateAttribs
  /-- `FirmwareUpdate_GetTpmFieldUpgradeCounter`: `none` models a
  non-`RC_SUCCESS` return, `some g` the counter value it reports. -/
  fieldUpgradeCounter : Option Nat
  /-- `FirmwareUpdate_GetTpm20FieldUpgradeCounterSelf` (only queried when
  the module has the newer TPM2.0 update loader). -/
  fieldUpgradeCounterSelf : Option Nat
deriving DecidableEq

/-- `IFXTPMUpdate_AdapterInformation_GetInformationCounters`
(AdapterInformation.c): returns the EFI status and, on success, the
`(UpdateCounter, UpdateCounterSelf)` pair written into the information
block. -/
def getInformationCounters (ptrsNull : Bool) (env : CountersEnv) :
    Nat × Option (Nat × Nat) :=
  if ptrsNull then (EFI_INVALID_PARAMETER, none)
  else if EFI_ERROR env.initAccess then (env.initAccess, none)
  else
    match env.calcState with
    | none => (EFI_DEVICE_ERROR, none)
    | some st =>
        match env.fieldUpgradeCounter with
        | none => (EFI_DEVICE_ERROR, none)
        | some g =>
            -- unFieldUpgradeCounterSelf is preset to 0xFFFFFFFF and only
            -- overwritten when the TPM2.0 FU loader supports the query
            if st.tpmHasFULoader20 then
              match env.fieldUpgradeCounterSelf with
              | none => (EFI_DEVICE_ERROR, none)
              | some v => (EFI_SUCCESS, some (g, v))
            else (EFI_SUCCESS, some (g, REMAINING_UPDATES_UNAVAILABLE))

/-! ## GetImageInfo (FirmwareManagement.c) -/

/-- `sizeof(EFI_FIRMWARE_IMAGE_DESCRIPTOR)`.  The struct is the standard
UEFI firmware-image descriptor; its exact platform size is irrelevant to
the properties proved here, only that it is a fixed positive constant. -/
def sizeofEfiFirmwareImageDescriptor : Nat := 144

/-- Outcome of the `FirmwareUpdate_GetImageInfo` library call. -/
inductive GetImageInfoCall where
  | failure (rc : Nat)
  | ok (st : TpmStateAttribs) (remainingUpdates : Nat)
deriving DecidableEq

structure GetImageInfoEnv where
  /-- EFI status returned by `InitializeTpmAccess`. -/
  initAccess : Nat
  call : GetImageInfoCall
  /-- `FirmwareUpdate_GetTpm20FieldUpgradeCounterSelf`. -/
  counterSelf : Option Nat
deriving DecidableEq

structure GetImageInfoOut where
  status : Nat
  /-- `*PpullImageInfoSize` on return. -/
  imageInfoSize : Nat
  /-- `AttributesSetting` of the written descriptor (`none` = the
  descriptor was not written). -/
  attributesSetting : Option Nat
  /-- Whether `InitializeTpmAccess` was called. -/
  accessAttempted : Bool
deriving DecidableEq

/-- The `switch (unEffectiveCounter)` of `GetImageInfo` mapping the
effective remaining-update counter to attribute bits. -/
def counterAttributeBits (effective : Nat) : Nat :=
  if effective = 0 then 0
  else if effective = 1 then
    IMAGE_ATTRIBUTE_IMAGE_UPDATABLE ||| IMAGE_ATTRIBUTE_IFXTPM_LAST_UPDATE
  else if effective = REMAINING_UPDATES_UNAVAILABLE then
    IMAGE_ATTRIBUTE_IFXTPM_RESTART_REQUIRED
  else IMAGE_ATTRIBUTE_IMAGE_UPDATABLE

/-- The state-dependent attribute bits of `GetImageInfo`. -/
def stateAttributeBits (st : TpmStateAttribs) : Nat :=
  (if st.tpm12 then IMAGE_ATTRIBUTE_IFXTPM_1_2 else 0) |||
  (if st.tpm20 then IMAGE_ATTRIBUTE_IFXTPM_2_0 else 0) |||
  (if st.tpm20restartRequired then IMAGE_ATTRIBUTE_IFXTPM_RESTART_REQUIRED else 0) |||
  (if st.tpm12owner then IMAGE_ATTRIBUTE_IFXTPM_HAS_OWNER else 0) |||
  (if st.tpm12DeferredPhysicalPresence then IMAGE_ATTRIBUTE_IFXTPM_DEFERREDPP else 0) |||
  (if st.tpmHasFULoader20 then
    (if ¬st.tpmInOperationalMode then IMAGE_ATTRIBUTE_IFXTPM_NON_OPERATIONAL_MODE else 0)
   else
    (if ¬st.tpmFirmwareIsValid then IMAGE_ATTRIBUTE_IFXTPM_INVALID_FIRMWARE_MODE else 0))

/-- Mapping of a failing `FirmwareUpdate_GetImageInfo` return value,
from `IFXTPMUpdate_FirmwareManagement_GetImageInfo`. -/
def mapGetImageInfoRC (rc : Nat) : Nat :=
  if rc = RC_E_NO_IFX_TPM then EFI_IFXTPM_UNSUPPORTED_VENDOR
  else if rc = RC_E_UNSUPPORTED_CHIP then EFI_IFXTPM_UNSUPPORTED_CHIP
  else if rc = RC_E_BAD_PARAMETER then EFI_INVALID_PARAMETER
  else if rc = RC_TPM_MASK ||| TSS_TPM_DEACTIVATED then EFI_IFXTPM_TPM12_DEACTIVATED
  else if rc = RC_TPM_MASK ||| TSS_TPM_DISABLED then EFI_IFXTPM_TPM12_DISABLED
  else EFI_DEVICE_ERROR

/-- The tail of `GetImageInfo` common to the paths that fill the
descriptor: add the always-present bits, fold in the counter mapping,
fill the descriptor and force `EFI_SUCCESS` unless the status is
`EFI_IFXTPM_UNSUPPORTED_CHIP`. -/
def getImageInfoFill (status : Nat) (bits remaining remainingSelf : Nat) :
    GetImageInfoOut :=
  let bits' := bits ||| IMAGE_ATTRIBUTE_IN_USE ||| IMAGE_ATTRIBUTE_RESET_REQUIRED |||
    counterAttributeBits (min remaining remainingSelf)
  { status := if status ≠ EFI_IFXTPM_UNSUPPORTED_CHIP then EFI_SUCCESS else status
    imageInfoSize := sizeofEfiFirmwareImageDescriptor
    attributesSetting := some bits'
    accessAttempted := true }

/-- `IFXTPMUpdate_FirmwareManagement_GetImageInfo`
(FirmwareManagement.c).  `thisNull`/`sizePtrNull` model
`PpThis`/`PpullImageInfoSize` being NULL, `sizeIn` the incoming
`*PpullImageInfoSize`, `imageInfoNull` a NULL `PpImageInfo`,
`otherPtrsNull` a NULL among the five remaining out-pointers. -/
def getImageInfo (thisNull sizePtrNull : Bool) (sizeIn : Nat)
    (imageInfoNull otherPtrsNull : Bool) (env : GetImageInfoEnv) : GetImageInfoOut :=
  if thisNull ∨ sizePtrNull then
    ⟨EFI_INVALID_PARAMETER, sizeIn, none, false⟩
  else if sizeIn < sizeofEfiFirmwareImageDescriptor then
    -- size-probe mode: report the required size, no TPM interaction
    ⟨EFI_BUFFER_TOO_SMALL, sizeofEfiFirmwareImageDescriptor, none, false⟩
  else if imageInfoNull then
    ⟨EFI_INVALID_PARAMETER, sizeIn, none, false⟩
  else if otherPtrsNull then
    ⟨EFI_INVALID_PARAMETER, sizeIn, none, false⟩
  else if EFI_ERROR env.initAccess then
    ⟨env.initAccess, sizeIn, none, true⟩
  else
    match env.call with
    | .failure rc =>
        if rc ≠ RC_E_UNSUPPORTED_CHIP then
          ⟨mapGetImageInfoRC rc, sizeIn, none, true⟩
        else
          getImageInfoFill EFI_IFXTPM_UNSUPPORTED_CHIP 0
            REMAINING_UPDATES_UNAVAILABLE REMAINING_UPDATES_UNAVAILABLE
    | .ok st remaining =>
        if st.tpm20InFailureMode then
          ⟨EFI_IFXTPM_TPM20_FAILURE_MODE, sizeIn, none, true⟩
        else if st.tpm12FailedSelfTest then
          ⟨EFI_IFXTPM_TPM12_FAILED_SELFTEST, sizeIn, none, true⟩
        else if st.tpmHasFULoader20 then
          match env.counterSelf with
          | none => ⟨EFI_DEVICE_ERROR, sizeIn, none, true⟩
          | some vSelf =>
              getImageInfoFill EFI_SUCCESS (stateAttributeBits st) remaining vSelf
        else
          getImageInfoFill EFI_SUCCESS (stateAttributeBits st) remaining
            REMAINING_UPDATES_UNAVAILABLE

/-- C10.  Whenever the incoming `*PpullImageInfoSize` is smaller than
`sizeof(EFI_FIRMWARE_IMAGE_DESCRIPTOR)` - regardless of whether
`PpImageInfo` is NULL - `GetImageInfo` stores the required size and
returns `EFI_BUFFER_TOO_SMALL` without calling `InitializeTpmAccess`
(hence without any module communication). -/
theorem getImageInfo_size_probe (sizeIn : Nat) (imageInfoNull otherPtrsNull : Bool)
    (env : GetImageInfoEnv) (h : sizeIn < sizeofEfiFirmwareImageDescriptor) :
    getImageInfo false false sizeIn imageInfoNull otherPtrsNull env =
      ⟨EFI_BUFFER_TOO_SMALL, sizeofEfiFirmwareImageDescriptor, none, false⟩ := by
  unfold getImageInfo
  rw [if_neg (by decide), if_pos h]

/-- Witness for C10: probing with size 0 and a NULL descriptor
pointer. -/
theorem getImageInfo_size_probe_witness :
    getImageInfo false false 0 true false
      (GetImageInfoEnv.mk EFI_SUCCESS (GetImageInfoCall.failure RC_E_FAIL) none) =
      ⟨EFI_BUFFER_TOO_SMALL, sizeofEfiFirmwareImageDescriptor, none, false⟩ :=
  getImageInfo_size_probe 0 true false
    (GetImageInfoEnv.mk EFI_SUCCESS (GetImageInfoCall.failure RC_E_FAIL) none)
    (by decide)

/-- C6.  A remaining-update counter that cannot be queried (module lacks
the newer update loader) is reported as the sentinel
`0xFFFFFFFF`/`REMAINING_UPDATES_UNAVAILABLE`, which is distinct from 0;
a counter value the query does report (in particular a real 0) is
reported unchanged; and in `GetImageInfo` the sentinel maps to the
restart-required attribute while an effective counter of 0 contributes
no attribute bits (in particular not "updatable"). -/
theorem counters_sentinel_vs_zero (env : CountersEnv) (st : TpmStateAttribs)
    (g v : Nat) (hinit : EFI_ERROR env.initAccess = false)
    (hcs : env.calcState = some st) (hg : env.fieldUpgradeCounter = some g) :
    (st.tpmHasFULoader20 = false →
      getInformationCounters false env =
        (EFI_SUCCESS, some (g, REMAINING_UPDATES_UNAVAILABLE))) ∧
    (st.tpmHasFULoader20 = true → env.fieldUpgradeCounterSelf = some v →
      getInformationCounters false env = (EFI_SUCCESS, some (g, v))) ∧
    REMAINING_UPDATES_UNAVAILABLE ≠ 0 ∧
    counterAttributeBits REMAINING_UPDATES_UNAVAILABLE =
      IMAGE_ATTRIBUTE_IFXTPM_RESTART_REQUIRED ∧
    counterAttributeBits 0 = 0 := by
  unfold getInformationCounters
  rw [if_neg (by decide), if_neg (by simp [hinit]), hcs]
  dsimp only
  rw [hg]
  dsimp only
  refine ⟨?_, ?_, by decide, by decide, by decide⟩
  · intro hld
    rw [if_neg (by simp [hld])]
  · intro hld hv
    rw [if_pos hld, hv]

/-- Witness for C6: a module with the newer loader whose same-version
counter query reports a real 0 - reported as 0, not as the sentinel. -/
theorem counters_sentinel_vs_zero_witness :
    getInformationCounters false
      (CountersEnv.mk EFI_SUCCESS (some stFuMode) (some 5) (some 0)) =
      (EFI_SUCCESS, some (5, 0)) :=
  ((counters_sentinel_vs_zero
      (CountersEnv.mk EFI_SUCCESS (some stFuMode) (some 5) (some 0))
      stFuMode 5 0 (by decide) rfl rfl).2.1) rfl rfl

/-! ## Version-string rendering (AdapterInformation.c / Platform.c)

`GetInformationFuDetails` renders both the current and the new firmware
version with `Platform_StringFormat(..., L"%d.%d.%d.%d", usMajor,
usMinor, usBuild, usRevision)`; `Platform_StringFormat` delegates the
conversion to the platform `UnicodeVSPrint`.  The `%d` conversion
(decimal digits, "0" for the value 0, no sign for the unsigned UINT16
fields) is embedded as `decimalString`. -/

def decDigitChar (d : Nat) : Char := Char.ofNat (48 + d)

/-- The decimal digit characters of `n`, most significant first
("0" for the value 0). -/
def decChars (n : Nat) : List Char :=
  if n = 0 then [decDigitChar 0] else (Nat.digits 10 n).reverse.map decDigitChar

/-- The `%d` conversion applied to a `Nat`. -/
def decimalString (n : Nat) : String := String.mk (decChars n)

/-- The format `L"%d.%d.%d.%d"` applied to the four version fields, as
in `GetInformationFuDetails` for both the `FirmwareVersion` and the
`NewFirmwareVersion` strings. -/
def formatVersion (major minor build revision : Nat) : String :=
  decimalString major ++ "." ++ decimalString minor ++ "." ++
    decimalString build ++ "." ++ decimalString revision

/-- Splitting a character list at `'.'` separators. -/
def splitOnDot : List Char → List (List Char)
  | [] => [[]]
  | c :: cs =>
      if c = '.' then [] :: splitOnDot cs
      else
        match splitOnDot cs with
        | [] => [[c]]
        | g :: gs => (c :: g) :: gs

theorem splitOnDot_no_sep (a : List Char) (h : ('.' : Char) ∉ a) :
    splitOnDot a = [a] := by
  induction a with
  | nil => rfl
  | cons c cs ih =>
      have hc : ¬c = '.' := fun he => h (he ▸ List.mem_cons_self c cs)
      have hcs : ('.' : Char) ∉ cs := fun hm => h (List.mem_cons_of_mem c hm)
      simp only [splitOnDot]
      rw [if_neg hc, ih hcs]

theorem splitOnDot_append_sep (a rest : List Char) (h : ('.' : Char) ∉ a) :
    splitOnDot (a ++ '.' :: rest) = a :: splitOnDot rest := by
  induction a with
  | nil =>
      rw [List.nil_append]
      simp only [splitOnDot]
      rw [if_pos trivial]
  | cons c cs ih =>
      have hc : ¬c = '.' := fun he => h (he ▸ List.mem_cons_self c cs)
      have hcs : ('.' : Char) ∉ cs := fun hm => h (List.mem_cons_of_mem c hm)
      rw [List.cons_append]
      simp only [splitOnDot]
      rw [if_neg hc, ih hcs]

theorem decDigitChar_isDigit (d : Nat) (h : d < 10) :
    (decDigitChar d).isDigit = true := by
  interval_cases d <;> decide

theorem decChars_all_digits (n : Nat) :
    ∀ ch ∈ decChars n, ch.isDigit = true := by
  intro ch hch
  unfold decChars at hch
  split_ifs at hch with h0
  · rcases List.mem_singleton.mp hch with rfl
    decide
  · rw [List.mem_map] at hch
    rcases hch with ⟨d, hd, rfl⟩
    rw [List.mem_reverse] at hd
    exact decDigitChar_isDigit d (Nat.digits_lt_base (by norm_num) hd)

theorem decChars_no_dot (n : Nat) : ('.' : Char) ∉ decChars n := by
  intro hmem
  have := decChars_all_digits n _ hmem
  exact absurd this (by decide)

theorem decChars_ne_empty (n : Nat) : decChars n ≠ [] := by
  unfold decChars
  split_ifs with h0
  · decide
  · intro he
    rw [List.map_eq_nil_iff, List.reverse_eq_nil_iff] at he
    exact h0 (Nat.digits_eq_nil_iff_eq_zero.mp he)

/-- C9.  A version string rendered by the driver consists of exactly
four dot-separated fields, one per version component, each a non-empty
all-decimal-digit string - also when any component is 0.  Both the
current and the new firmware version use this same rendering
(`formatVersion`). -/
theorem formatVersion_four_decimal_fields (major minor build revision : Nat) :
    splitOnDot (formatVersion major minor build revision).data =
      [decChars major, decChars minor, decChars build, decChars revision] ∧
    (splitOnDot (formatVersion major minor build revision).data).length = 4 ∧
    ∀ f ∈ splitOnDot (formatVersion major minor build revision).data,
      f ≠ [] ∧ ∀ ch ∈ f, ch.isDigit = true := by
  have hdata : (formatVersion major minor build revision).data =
      decChars major ++ '.' ::
      (decChars minor ++ '.' :: (decChars build ++ '.' :: decChars revision)) := by
    unfold formatVersion decimalString
    simp [String.data_append]
  have hsplit : splitOnDot (formatVersion major minor build revision).data =
      [decChars major, decChars minor, decChars build, decChars revision] := by
    rw [hdata]
    rw [splitOnDot_append_sep _ _ (decChars_no_dot major),
      splitOnDot_append_sep _ _ (decChars_no_dot minor),
      splitOnDot_append_sep _ _ (decChars_no_dot build),
      splitOnDot_no_sep _ (decChars_no_dot revision)]
  refine ⟨hsplit, by rw [hsplit]; rfl, ?_⟩
  rw [hsplit]
  intro f hf
  simp only [List.mem_cons, List.not_mem_nil, or_false] at hf
  rcases hf with rfl | rfl | rfl | rfl
  · exact ⟨decChars_ne_empty major, decChars_all_digits major⟩
  · exact ⟨decChars_ne_empty minor, decChars_all_digits minor⟩
  · exact ⟨decChars_ne_empty build, decChars_all_digits build⟩
  · exact ⟨decChars_ne_empty revision, decChars_all_digits revision⟩

/-- Witness for C9: version 2.1.0.3, with a zero build field, still
renders as four fields. -/
theorem formatVersion_four_decimal_fields_witness :
    splitOnDot (formatVersion 2 1 0 3).data =
      [decChars 2, decChars 1, decChars 0, decChars 3] :=
  (formatVersion_four_decimal_fields 2 1 0 3).1

/-! ## Unmarshalling (MicroTss)

A command/response buffer is a cursor plus a remaining-length counter;
the unmarshal functions below operate on the remaining declared window,
a `List Nat` of byte values, returning either an `RC_*` error or the
decoded value together with the unconsumed suffix of the window.

Modelled from the spec: the primitive unmarshal implementations
(TPM2_Marshal.c / TPM_Marshal.c bodies) are not among the provided
sources - only their declarations are.  Per spec §4.1 each primitive
unmarshal reads its fixed number of bytes in big-endian wire order and
decrements the remaining length, failing with a size-mismatch error when
the remaining length is insufficient; a counted-array unmarshal rejects
a count that would exceed the remaining buffer length before attempting
to read the elements.  `TSS_TPML_MAX_BUFFER_Unmarshal` itself is
embedded from its source in TPM2_VendorMarshal.c. -/

/-- Read `n` raw bytes from the window, failing closed. -/
def readBytesU (n : Nat) (buf : List Nat) : Except Nat (List Nat × List Nat) :=
  if buf.length < n then Except.error RC_E_BUFFER_TOO_SMALL
  else Except.ok (buf.take n, buf.drop n)

/-- Big-endian value of a byte list. -/
def beValue (bytes : List Nat) : Nat :=
  bytes.foldl (fun acc b => acc * 256 + b) 0

/-- Fixed-width big-endian unsigned unmarshal (width `n` bytes). -/
def tssUINTn_Unmarshal (n : Nat) (buf : List Nat) : Except Nat (Nat × List Nat) :=
  match readBytesU n buf with
  | Except.error e => Except.error e
  | Except.ok (bs, rest) => Except.ok (beValue bs, rest)

def tssUINT8_Unmarshal (buf : List Nat) : Except Nat (Nat × List Nat) :=
  tssUINTn_Unmarshal 1 buf

def tssUINT16_Unmarshal (buf : List Nat) : Except Nat (Nat × List Nat) :=
  tssUINTn_Unmarshal 2 buf

def tssUINT32_Unmarshal (buf : List Nat) : Except Nat (Nat × List Nat) :=
  tssUINTn_Unmarshal 4 buf

/-- `sizeof(((TPM2B_MAX_BUFFER*)0)->buffer)`: the standard TPM2.0
maximum data buffer size. -/
def TSS_MAX_DIGEST_BUFFER : Nat := 1024

/-- A decoded `TPM2B_MAX_BUFFER`: declared size and data bytes. -/
abbrev Tpm2bMaxBuffer := Nat × List Nat

/-- `TSS_TPM2B_MAX_BUFFER_Unmarshal`: a UINT16 size field (checked
against the structure's capacity) followed by `size` raw bytes. -/
def tssTPM2B_MAX_BUFFER_Unmarshal (buf : List Nat) :
    Except Nat (Tpm2bMaxBuffer × List Nat) :=
  match tssUINT16_Unmarshal buf with
  | Except.error e => Except.error e
  | Except.ok (size, r1) =>
      if TSS_MAX_DIGEST_BUFFER < size then Except.error RC_E_BAD_PARAMETER
      else
        match readBytesU size r1 with
        | Except.error e => Except.error e
        | Except.ok (bs, r2) => Except.ok ((size, bs), r2)

/-- Element loop of the `TPM2B_MAX_BUFFER` array unmarshal. -/
def tpm2bArrayLoop : Nat → List Nat → Except Nat (List Tpm2bMaxBuffer × List Nat)
  | 0, buf => Except.ok ([], buf)
  | k + 1, buf =>
      match tssTPM2B_MAX_BUFFER_Unmarshal buf with
      | Except.error e => Except.error e
      | Except.ok (v, rest) =>
          match tpm2bArrayLoop k rest with
          | Except.error e => Except.error e
          | Except.ok (vs, rest2) => Except.ok (v :: vs, rest2)

/-- `TSS_TPM2B_MAX_BUFFER_Array_Unmarshal`: rejects a count whose
minimal encoding (two size bytes per element) exceeds the remaining
window length before reading any element, then reads the elements. -/
def tssTPM2B_MAX_BUFFER_Array_Unmarshal (count : Nat) (buf : List Nat) :
    Except Nat (List Tpm2bMaxBuffer × List Nat) :=
  if buf.length < 2 * count then Except.error RC_E_BUFFER_TOO_SMALL
  else tpm2bArrayLoop count buf

/-- `TSS_TPML_MAX_BUFFER_Unmarshal` (TPM2_VendorMarshal.c): a UINT32
count followed by `count` `TPM2B_MAX_BUFFER` elements. -/
def tssTPML_MAX_BUFFER_Unmarshal (buf : List Nat) :
    Except Nat ((Nat × List Tpm2bMaxBuffer) × List Nat) :=
  match tssUINT32_Unmarshal buf with
  | Except.error e => Except.error e
  | Except.ok (count, r1) =>
      match tssTPM2B_MAX_BUFFER_Array_Unmarshal count r1 with
      | Except.error e => Except.error e
      | Except.ok (vs, r2) => Except.ok ((count, vs), r2)

/-- `p` decodes exactly the byte sequence `pre` to the value `v`:
appending any tail leaves the tail unconsumed and the result unchanged. -/
def Produces {α : Type} (p : List Nat → Except Nat (α × List Nat))
    (pre : List Nat) (v : α) : Prop :=
  ∀ tail, p (pre ++ tail) = Except.ok (v, tail)

/-! ### Consumption lemmas for the unmarshal layer -/

theorem readBytesU_shape (n : Nat) (buf : List Nat) (v rest : List Nat)
    (h : readBytesU n buf = Except.ok (v, rest)) :
    buf = v ++ rest ∧ v.length = n := by
  unfold readBytesU at h
  split_ifs at h with hlen
  rcases Except.ok.inj h with h2
  obtain ⟨hv, hr⟩ := Prod.mk.injEq .. ▸ h2
  refine ⟨?_, ?_⟩
  · rw [← hv, ← hr, List.take_append_drop]
  · rw [← hv, List.length_take]
    omega

theorem readBytesU_produces (n : Nat) (pre : List Nat) (hlen : pre.length = n) :
    Produces (readBytesU n) pre pre := by
  intro tail
  unfold readBytesU
  rw [if_neg (by simp [hlen])]
  rw [List.take_left' hlen, List.drop_left' hlen]

theorem readBytesU_trunc (n : Nat) (pre : List Nat) (hlen : pre.length = n)
    (m : Nat) (hm : m < n) :
    readBytesU n (pre.take m) = Except.error RC_E_BUFFER_TOO_SMALL := by
  unfold readBytesU
  rw [if_pos]
  rw [List.length_take]
  omega

theorem tssUINTn_shape (n : Nat) (buf : List Nat) (v : Nat) (rest : List Nat)
    (h : tssUINTn_Unmarshal n buf = Except.ok (v, rest)) :
    ∃ pre, buf = pre ++ rest ∧ pre.length = n ∧ v = beValue pre := by
  unfold tssUINTn_Unmarshal at h
  rcases hrb : readBytesU n buf with e | ⟨bs, r⟩
  · rw [hrb] at h
    exact absurd h (by simp)
  · rw [hrb] at h
    rcases Except.ok.inj h with h2
    obtain ⟨hv, hr⟩ := Prod.mk.injEq .. ▸ h2
    obtain ⟨hb, hl⟩ := readBytesU_shape n buf bs r hrb
    exact ⟨bs, by rw [hb, hr], hl, hv.symm⟩

/-- A successful fixed-width unmarshal decrements the remaining length
by exactly the width. -/
theorem tssUINTn_consumes (n : Nat) (buf : List Nat) (v : Nat) (rest : List Nat)
    (h : tssUINTn_Unmarshal n buf = Except.ok (v, rest)) :
    rest.length + n = buf.length := by
  obtain ⟨pre, hb, hl, _⟩ := tssUINTn_shape n buf v rest h
  rw [hb, List.length_append, hl]
  omega

theorem tssUINTn_produces (n : Nat) (pre : List Nat) (hlen : pre.length = n) :
    Produces (tssUINTn_Unmarshal n) pre (beValue pre) := by
  intro tail
  unfold tssUINTn_Unmarshal
  rw [readBytesU_produces n pre hlen tail]

theorem tssUINTn_trunc (n : Nat) (pre : List Nat) (hlen : pre.length = n)
    (m : Nat) (hm : m < n) :
    tssUINTn_Unmarshal n (pre.take m) = Except.error RC_E_BUFFER_TOO_SMALL := by
  unfold tssUINTn_Unmarshal
  rw [readBytesU_trunc n pre hlen m hm]

theorem tpm2b_shape (buf : List Nat) (v : Tpm2bMaxBuffer) (rest : List Nat)
    (h : tssTPM2B_MAX_BUFFER_Unmarshal buf = Except.ok (v, rest)) :
    ∃ p1 bs, buf = (p1 ++ bs) ++ rest ∧ p1.length = 2 ∧ v = (beValue p1, bs) ∧
      bs.length = beValue p1 ∧ ¬TSS_MAX_DIGEST_BUFFER < beValue p1 := by
  unfold tssTPM2B_MAX_BUFFER_Unmarshal at h
  rcases h16 : tssUINT16_Unmarshal buf with e | ⟨size, r1⟩
  · rw [h16] at h
    exact absurd h (by simp)
  · rw [h16] at h
    dsimp only at h
    split_ifs at h with hmax
    rcases hrb : readBytesU size r1 with e | ⟨bs, r2⟩
    · rw [hrb] at h
      exact absurd h (by simp)
    · rw [hrb] at h
      rcases Except.ok.inj h with h2
      obtain ⟨hv, hr⟩ := Prod.mk.injEq .. ▸ h2
      obtain ⟨p1, hb1, hp1, hsz⟩ := tssUINTn_shape 2 buf size r1 h16
      obtain ⟨hb2, hbs⟩ := readBytesU_shape size r1 bs r2 hrb
      refine ⟨p1, bs, ?_, hp1, ?_, ?_, ?_⟩
      · rw [hb1, hb2, hr, List.append_assoc]
      · rw [← hv, hsz]
      · rw [hbs, hsz]
      · rw [← hsz]; exact hmax

theorem tpm2b_produces (p1 bs : List Nat) (hp1 : p1.length = 2)
    (hbs : bs.length = beValue p1) (hmax : ¬TSS_MAX_DIGEST_BUFFER < beValue p1) :
    Produces tssTPM2B_MAX_BUFFER_Unmarshal (p1 ++ bs) (beValue p1, bs) := by
  intro tail
  unfold tssTPM2B_MAX_BUFFER_Unmarshal
  rw [List.append_assoc]
  rw [show tssUINT16_Unmarshal (p1 ++ (bs ++ tail)) =
      Except.ok (beValue p1, bs ++ tail) from tssUINTn_produces 2 p1 hp1 (bs ++ tail)]
  dsimp only
  rw [if_neg hmax]
  rw [show readBytesU (beValue p1) (bs ++ tail) = Except.ok (bs, tail) from
    readBytesU_produces (beValue p1) bs hbs tail]

theorem tpm2b_trunc (p1 bs : List Nat) (hp1 : p1.length = 2)
    (hbs : bs.length = beValue p1) (hmax : ¬TSS_MAX_DIGEST_BUFFER < beValue p1)
    (m : Nat) (hm : m < (p1 ++ bs).length) :
    ∃ e, tssTPM2B_MAX_BUFFER_Unmarshal ((p1 ++ bs).take m) = Except.error e := by
  unfold tssTPM2B_MAX_BUFFER_Unmarshal
  by_cases h2 : m < 2
  · refine ⟨RC_E_BUFFER_TOO_SMALL, ?_⟩
    have : tssUINT16_Unmarshal ((p1 ++ bs).take m) = Except.error RC_E_BUFFER_TOO_SMALL := by
      unfold tssUINT16_Unmarshal tssUINTn_Unmarshal readBytesU
      rw [if_pos]
      rw [List.length_take, List.length_append, hp1]
      omega
    rw [this]
  · have htk : (p1 ++ bs).take m = p1 ++ bs.take (m - 2) := by
      rw [List.take_append_eq_append_take, hp1,
        List.take_of_length_le (by omega : p1.length ≤ m)]
    refine ⟨RC_E_BUFFER_TOO_SMALL, ?_⟩
    rw [htk]
    rw [show tssUINT16_Unmarshal (p1 ++ bs.take (m - 2)) =
        Except.ok (beValue p1, bs.take (m - 2)) from
      tssUINTn_produces 2 p1 hp1 (bs.take (m - 2))]
    dsimp only
    rw [if_neg hmax]
    have : readBytesU (beValue p1) (bs.take (m - 2)) =
        Except.error RC_E_BUFFER_TOO_SMALL := by
      unfold readBytesU
      rw [if_pos]
      rw [List.length_take]
      rw [List.length_append, hp1] at hm
      omega
    rw [this]

/-- Combined consumption facts for the element loop, by induction on
the count: the consumed bytes `pre` are a prefix of the window, at
least two bytes are consumed per element, the loop is insensitive to
the bytes beyond `pre`, and every proper prefix of `pre` makes the loop
fail. -/
theorem tpm2bArrayLoop_shape :
    ∀ (k : Nat) (buf : List Nat) (vs : List Tpm2bMaxBuffer) (rest : List Nat),
    tpm2bArrayLoop k buf = Except.ok (vs, rest) →
    ∃ pre, buf = pre ++ rest ∧ 2 * k ≤ pre.length ∧
      Produces (tpm2bArrayLoop k) pre vs ∧
      (∀ m, m < pre.length → ∃ e, tpm2bArrayLoop k (pre.take m) = Except.error e) := by
  intro k
  induction k with
  | zero =>
      intro buf vs rest h
      unfold tpm2bArrayLoop at h
      rcases Except.ok.inj h with h2
      obtain ⟨hv, hr⟩ := Prod.mk.injEq .. ▸ h2
      refine ⟨[], by rw [hr, List.nil_append], by simp, ?_, ?_⟩
      · intro tail
        rw [List.nil_append, ← hv]
        rfl
      · intro m hm
        exact absurd hm (by simp)
  | succ k ih =>
      intro buf vs rest h
      unfold tpm2bArrayLoop at h
      rcases h2b : tssTPM2B_MAX_BUFFER_Unmarshal buf with e | ⟨v, r⟩
      · rw [h2b] at h
        exact absurd h (by simp)
      · rw [h2b] at h
        dsimp only at h
        rcases hlp : tpm2bArrayLoop k r with e | ⟨vs', rest'⟩
        · rw [hlp] at h
          exact absurd h (by simp)
        · rw [hlp] at h
          rcases Except.ok.inj h with h2
          obtain ⟨hv, hr⟩ := Prod.mk.injEq .. ▸ h2
          obtain ⟨p1, bs, hb1, hp1, hvv, hbs, hmax⟩ := tpm2b_shape buf v r h2b
          obtain ⟨pre2, hb2, hlen2, hprod2, htr2⟩ := ih r vs' rest' hlp
          refine ⟨(p1 ++ bs) ++ pre2, ?_, ?_, ?_, ?_⟩
          · rw [hb1, hb2, hr]
            simp [List.append_assoc]
          · rw [List.length_append, List.length_append, hp1]
            omega
          · intro tail
            unfold tpm2bArrayLoop
            rw [List.append_assoc]
            rw [show tssTPM2B_MAX_BUFFER_Unmarshal ((p1 ++ bs) ++ (pre2 ++ tail)) =
                Except.ok ((beValue p1, bs), pre2 ++ tail) from
              tpm2b_produces p1 bs hp1 hbs hmax (pre2 ++ tail)]
            dsimp only
            rw [hprod2 tail]
            rw [← hv, hvv]
          · intro m hm
            by_cases hc1 : m < (p1 ++ bs).length
            · obtain ⟨e, he⟩ := tpm2b_trunc p1 bs hp1 hbs hmax m hc1
              refine ⟨e, ?_⟩
              have htk : ((p1 ++ bs) ++ pre2).take m = (p1 ++ bs).take m := by
                rw [List.take_append_eq_append_take,
                  (by omega : m - (p1 ++ bs).length = 0), List.take_zero,
                  List.append_nil]
              rw [htk]
              unfold tpm2bArrayLoop
              rw [he]
            · have hm2 : m - (p1 ++ bs).length < pre2.length := by
                rw [List.length_append] at hm
                omega
              obtain ⟨e, he⟩ := htr2 _ hm2
              refine ⟨e, ?_⟩
              have htk : ((p1 ++ bs) ++ pre2).take m =
                  (p1 ++ bs) ++ pre2.take (m - (p1 ++ bs).length) := by
                rw [List.take_append_eq_append_take,
                  List.take_of_length_le (by omega : (p1 ++ bs).length ≤ m)]
              rw [htk]
              unfold tpm2bArrayLoop
              rw [List.append_assoc] at htk ⊢
              rw [show tssTPM2B_MAX_BUFFER_Unmarshal
                  (p1 ++ (bs ++ pre2.take (m - (p1 ++ bs).length))) =
                  Except.ok ((beValue p1, bs), pre2.take (m - (p1 ++ bs).length)) from by
                have := tpm2b_produces p1 bs hp1 hbs hmax (pre2.take (m - (p1 ++ bs).length))
                rw [List.append_assoc] at this
                exact this]
              dsimp only
              rw [he]

theorem tpm2bArray_shape (count : Nat) (buf : List Nat) (vs : List Tpm2bMaxBuffer)
    (rest : List Nat)
    (h : tssTPM2B_MAX_BUFFER_Array_Unmarshal count buf = Except.ok (vs, rest)) :
    ∃ pre, buf = pre ++ rest ∧ 2 * count ≤ pre.length ∧
      Produces (tssTPM2B_MAX_BUFFER_Array_Unmarshal count) pre vs ∧
      (∀ m, m < pre.length →
        ∃ e, tssTPM2B_MAX_BUFFER_Array_Unmarshal count (pre.take m) = Except.error e) := by
  unfold tssTPM2B_MAX_BUFFER_Array_Unmarshal at h
  split_ifs at h with hlen
  obtain ⟨pre, hb, hl, hprod, htr⟩ := tpm2bArrayLoop_shape count buf vs rest h
  refine ⟨pre, hb, hl, ?_, ?_⟩
  · intro tail
    unfold tssTPM2B_MAX_BUFFER_Array_Unmarshal
    rw [if_neg (by rw [List.length_append]; omega)]
    exact hprod tail
  · intro m hm
    unfold tssTPM2B_MAX_BUFFER_Array_Unmarshal
    by_cases hc : (pre.take m).length < 2 * count
    · refine ⟨RC_E_BUFFER_TOO_SMALL, ?_⟩
      rw [if_pos hc]
    · obtain ⟨e, he⟩ := htr m hm
      refine ⟨e, ?_⟩
      rw [if_neg hc]
      exact he

theorem tssTPML_shape (buf : List Nat) (v : Nat × List Tpm2bMaxBuffer)
    (rest : List Nat) (h : tssTPML_MAX_BUFFER_Unmarshal buf = Except.ok (v, rest)) :
    ∃ pre, buf = pre ++ rest ∧ 4 ≤ pre.length ∧
      (∀ m, m < pre.length →
        ∃ e, tssTPML_MAX_BUFFER_Unmarshal (pre.take m) = Except.error e) := by
  unfold tssTPML_MAX_BUFFER_Unmarshal at h
  rcases h32 : tssUINT32_Unmarshal buf with e | ⟨count, r1⟩
  · rw [h32] at h
    exact absurd h (by simp)
  · rw [h32] at h
    dsimp only at h
    rcases har : tssTPM2B_MAX_BUFFER_Array_Unmarshal count r1 with e | ⟨vs, r2⟩
    · rw [har] at h
      exact absurd h (by simp)
    · rw [har] at h
      rcases Except.ok.inj h with h2
      obtain ⟨hv, hr⟩ := Prod.mk.injEq .. ▸ h2
      obtain ⟨p0, hb0, hp0, hcount⟩ := tssUINTn_shape 4 buf count r1 h32
      obtain ⟨pre1, hb1, hlen1, hprod1, htr1⟩ := tpm2bArray_shape count r1 vs r2 har
      refine ⟨p0 ++ pre1, ?_, ?_, ?_⟩
      · rw [hb0, hb1, hr]
        simp [List.append_assoc]
      · rw [List.length_append, hp0]
        omega
      · intro m hm
        by_cases hc4 : m < 4
        · refine ⟨RC_E_BUFFER_TOO_SMALL, ?_⟩
          have htk : (p0 ++ pre1).take m = p0.take m := by
            rw [List.take_append_eq_append_take, hp0,
              (by omega : m - 4 = 0), List.take_zero, List.append_nil]
          rw [htk]
          unfold tssTPML_MAX_BUFFER_Unmarshal
          rw [show tssUINT32_Unmarshal (p0.take m) = Except.error RC_E_BUFFER_TOO_SMALL
            from tssUINTn_trunc 4 p0 hp0 m hc4]
        · have hm1 : m - 4 < pre1.length := by
            rw [List.length_append, hp0] at hm
            omega
          obtain ⟨e, he⟩ := htr1 (m - p0.length) (by rw [hp0]; omega)
          refine ⟨e, ?_⟩
          have htk : (p0 ++ pre1).take m = p0 ++ pre1.take (m - p0.length) := by
            rw [List.take_append_eq_append_take,
              List.take_of_length_le (by omega : p0.length ≤ m)]
          rw [htk]
          unfold tssTPML_MAX_BUFFER_Unmarshal
          rw [show tssUINT32_Unmarshal (p0 ++ pre1.take (m - p0.length)) =
              Except.ok (beValue p0, pre1.take (m - p0.length)) from
            tssUINTn_produces 4 p0 hp0 (pre1.take (m - p0.length))]
          dsimp only
          rw [hp0] at he
          rw [← hcount, hp0, he]

/-- The count field is rejected before any element is read when its
minimal element encoding exceeds the remaining window. -/
theorem tssTPML_reject_count (buf : List Nat) (count : Nat) (r1 : List Nat)
    (h32 : tssUINT32_Unmarshal buf = Except.ok (count, r1))
    (hlen : r1.length < 2 * count) :
    tssTPML_MAX_BUFFER_Unmarshal buf = Except.error RC_E_BUFFER_TOO_SMALL := by
  unfold tssTPML_MAX_BUFFER_Unmarshal
  rw [h32]
  dsimp only
  unfold tssTPM2B_MAX_BUFFER_Array_Unmarshal
  rw [if_pos hlen]

/-- C7.  Unmarshalling consumes at most the declared remaining length:
a fixed-width primitive fails closed when the remaining length is
insufficient and otherwise decrements it by exactly its width; the
composite `TSS_TPML_MAX_BUFFER_Unmarshal` consumes only a prefix of the
declared window; every truncation of that prefix yields an error rather
than a read past the declared remaining length; and a count field whose
elements would exceed the remaining length is rejected before any
element is read. -/
theorem unmarshal_fail_closed :
    (∀ n buf, buf.length < n →
      tssUINTn_Unmarshal n buf = Except.error RC_E_BUFFER_TOO_SMALL) ∧
    (∀ n buf v rest, tssUINTn_Unmarshal n buf = Except.ok (v, rest) →
      rest.length + n = buf.length) ∧
    (∀ buf v rest, tssTPML_MAX_BUFFER_Unmarshal buf = Except.ok (v, rest) →
      ∃ pre, buf = pre ++ rest) ∧
    (∀ buf v rest m, tssTPML_MAX_BUFFER_Unmarshal buf = Except.ok (v, rest) →
      m < buf.length - rest.length →
      ∃ e, tssTPML_MAX_BUFFER_Unmarshal (buf.take m) = Except.error e) ∧
    (∀ buf count r1, tssUINT32_Unmarshal buf = Except.ok (count, r1) →
      r1.length < 2 * count →
      tssTPML_MAX_BUFFER_Unmarshal buf = Except.error RC_E_BUFFER_TOO_SMALL) := by
  refine ⟨?_, ?_, ?_, ?_, ?_⟩
  · intro n buf hlen
    unfold tssUINTn_Unmarshal readBytesU
    rw [if_pos hlen]
  · intro n buf v rest h
    exact tssUINTn_consumes n buf v rest h
  · intro buf v rest h
    obtain ⟨pre, hb, _, _⟩ := tssTPML_shape buf v rest h
    exact ⟨pre, hb⟩
  · intro buf v rest m h hm
    obtain ⟨pre, hb, _, htr⟩ := tssTPML_shape buf v rest h
    have hplen : pre.length = buf.length - rest.length := by
      rw [hb, List.length_append]
      omega
    have hm' : m < pre.length := by omega
    obtain ⟨e, he⟩ := htr m hm'
    refine ⟨e, ?_⟩
    have htk : buf.take m = pre.take m := by
      rw [hb, List.take_append_eq_append_take,
        (by omega : m - pre.length = 0), List.take_zero, List.append_nil]
    rw [htk]
    exact he
  · intro buf count r1 h32 hlen
    exact tssTPML_reject_count buf count r1 h32 hlen

/-- Witness for C7: the count field 2 with only two remaining bytes is
rejected up front with a size error. -/
theorem unmarshal_fail_closed_witness :
    tssTPML_MAX_BUFFER_Unmarshal [0, 0, 0, 2, 0, 0] =
      Except.error RC_E_BUFFER_TOO_SMALL :=
  unmarshal_fail_closed.2.2.2.2 [0, 0, 0, 2, 0, 0] 2 [0, 0] (by rfl) (by decide)

/-! ## TSS_TPM_GetTestResult (TPM_GetTestResult.c)

The function marshals a fixed 10-byte request into a large local
buffer (which cannot fail), transmits it, and unmarshals the response:
tag (UINT16), response size (UINT32), response code (UINT32), then -
only on a success code - the test-result length and data.  The
environment carries the `DeviceManagement_Transmit` outcome. -/

structure GetTestResultEnv where
  /-- `DeviceManagement_Transmit`: a non-`RC_SUCCESS` return or the raw
  response bytes. -/
  transmit : Except Nat (List Nat)

structure GetTestResultOut where
  rc : Nat
  /-- Whether `DeviceManagement_Transmit` was called. -/
  transmitted : Bool
  /-- Number of response bytes unmarshalled. -/
  consumed : Nat
  /-- Test-result bytes written through `PrgbOutData`. -/
  outData : Option (List Nat)
deriving DecidableEq

/-- `TSS_TPM_GetTestResult` (TPM_GetTestResult.c).  `outPtrsNull` models
`PrgbOutData == NULL || PpunOutDataSize == NULL`; `capacity` the
incoming `*PpunOutDataSize`. -/
def tssTPM_GetTestResult (outPtrsNull : Bool) (capacity : Nat)
    (env : GetTestResultEnv) : GetTestResultOut :=
  if outPtrsNull then ⟨RC_E_BAD_PARAMETER, false, 0, none⟩
  else
    match env.transmit with
    | Except.error rc => ⟨rc, true, 0, none⟩
    | Except.ok resp =>
        match tssUINT16_Unmarshal resp with
        | Except.error e => ⟨e, true, 0, none⟩
        | Except.ok (_tag, r1) =>
            match tssUINT32_Unmarshal r1 with
            | Except.error e => ⟨e, true, resp.length - r1.length, none⟩
            | Except.ok (_responseSize, r2) =>
                match tssUINT32_Unmarshal r2 with
                | Except.error e => ⟨e, true, resp.length - r2.length, none⟩
                | Except.ok (responseCode, r3) =>
                    if responseCode ≠ TSS_TPM_RC_SUCCESS then
                      -- module-reported error: short-circuit all further
                      -- unmarshalling of this response
                      ⟨RC_TPM_MASK ||| responseCode, true, resp.length - r3.length, none⟩
                    else
                      match tssUINT32_Unmarshal r3 with
                      | Except.error e => ⟨e, true, resp.length - r3.length, none⟩
                      | Except.ok (outDataSize, r4) =>
                          if capacity < outDataSize then
                            ⟨RC_E_BUFFER_TOO_SMALL, true, resp.length - r4.length, none⟩
                          else
                            match readBytesU outDataSize r4 with
                            | Except.error e =>
                                ⟨e, true, resp.length - r4.length, none⟩
                            | Except.ok (bs, r5) =>
                                ⟨RC_SUCCESS, true, resp.length - r5.length, some bs⟩

/-- C2.  A non-success module result code in the response envelope stops
all unmarshalling of that response: exactly the 10 envelope bytes are
consumed, no payload is decoded, and the returned code is
`RC_TPM_MASK ||| responseCode` - distinct from `RC_SUCCESS` and from
every local decode error of this function (`RC_E_BAD_PARAMETER`,
`RC_E_BUFFER_TOO_SMALL`) for any module code below `2^16`. -/
theorem getTestResult_module_error_short_circuits (capacity : Nat)
    (env : GetTestResultEnv) (resp r1 r2 r3 : List Nat) (tag respSize code : Nat)
    (htr : env.transmit = Except.ok resp)
    (h16 : tssUINT16_Unmarshal resp = Except.ok (tag, r1))
    (h32a : tssUINT32_Unmarshal r1 = Except.ok (respSize, r2))
    (h32b : tssUINT32_Unmarshal r2 = Except.ok (code, r3))
    (hcode : code ≠ TSS_TPM_RC_SUCCESS) :
    tssTPM_GetTestResult false capacity env =
      ⟨RC_TPM_MASK ||| code, true, 10, none⟩ ∧
    (code < 2 ^ 16 →
      RC_TPM_MASK ||| code ≠ RC_SUCCESS ∧
      RC_TPM_MASK ||| code ≠ RC_E_BAD_PARAMETER ∧
      RC_TPM_MASK ||| code ≠ RC_E_BUFFER_TOO_SMALL) := by
  constructor
  · unfold tssTPM_GetTestResult
    rw [if_neg (by decide), htr]
    dsimp only
    rw [h16]
    dsimp only
    rw [h32a]
    dsimp only
    rw [h32b]
    dsimp only
    rw [if_pos hcode]
    have c16 := tssUINTn_consumes 2 resp tag r1 h16
    have c32a := tssUINTn_consumes 4 r1 respSize r2 h32a
    have c32b := tssUINTn_consumes 4 r2 code r3 h32b
    have : resp.length - r3.length = 10 := by omega
    rw [this]
  · intro hlt
    have hbit : Nat.testBit code 16 = false := Nat.testBit_lt_two_pow hlt
    refine ⟨?_, ?_, ?_⟩
    · intro heq
      have h19 := congrArg (fun x => Nat.testBit x 19) heq
      simp only [Nat.testBit_lor] at h19
      rw [show Nat.testBit RC_TPM_MASK 19 = true by decide, Bool.true_or] at h19
      exact absurd h19 (by decide)
    · intro heq
      have h16 := congrArg (fun x => Nat.testBit x 16) heq
      simp only [Nat.testBit_lor] at h16
      rw [show Nat.testBit RC_TPM_MASK 16 = false by decide, Bool.false_or, hbit] at h16
      exact absurd h16 (by decide)
    · intro heq
      have h16 := congrArg (fun x => Nat.testBit x 16) heq
      simp only [Nat.testBit_lor] at h16
      rw [show Nat.testBit RC_TPM_MASK 16 = false by decide, Bool.false_or, hbit] at h16
      exact absurd h16 (by decide)

/-- Witness for C2: a response envelope carrying module code 6
(`TPM_DEACTIVATED`). -/
theorem getTestResult_module_error_short_circuits_witness :
    tssTPM_GetTestResult false 64
      (GetTestResultEnv.mk (Except.ok [0, 0xC4, 0, 0, 0, 10, 0, 0, 0, 6])) =
      ⟨RC_TPM_MASK ||| 6, true, 10, none⟩ :=
  (getTestResult_module_error_short_circuits 64
    (GetTestResultEnv.mk (Except.ok [0, 0xC4, 0, 0, 0, 10, 0, 0, 0, 6]))
    [0, 0xC4, 0, 0, 0, 10, 0, 0, 0, 6] [0, 0, 0, 10, 0, 0, 0, 6] [0, 0, 0, 6] []
    0xC4 10 6 rfl (by rfl) (by rfl) (by rfl) (by decide)).1

/-! ## TPMIO_Transmit (TpmIO.c) -/

/-- `TPM_DEVICE_ACCESS_MEMORY_BASED`.  Modelled from the spec: the
configuration constant's numeric value is declared in a header not
among the provided sources; only that it is the memory-based (TIS)
access selector matters. -/
def TPM_DEVICE_ACCESS_MEMORY_BASED : Nat := 1

structure TpmioEnv where
  /-- `g_fConnected`. -/
  connected : Bool
  /-- `g_unTpmDeviceAccessModeCfg`. -/
  accessMode : Nat
  /-- `PropertyStorage_GetUIntegerValueByKey(PROPERTY_LOCALITY, ·)`. -/
  locality : Option Nat
  /-- Return code of `TIS_TransceiveLPC`. -/
  tisResult : Nat
deriving DecidableEq

/-- `TPMIO_Transmit` (TpmIO.c): returns the `RC_*` code and whether the
device was touched (`TIS_TransceiveLPC` reached).  `buffersNull` models
`PrgbRequestBuffer == NULL || PrgbResponseBuffer == NULL ||
PpunResponseBufferSize == NULL`. -/
def tpmioTransmit (buffersNull : Bool) (env : TpmioEnv) : Nat × Bool :=
  if buffersNull then (RC_E_BAD_PARAMETER, false)
  else if ¬env.connected then (RC_E_NOT_CONNECTED, false)
  else if env.accessMode = TPM_DEVICE_ACCESS_MEMORY_BASED then
    match env.locality with
    | none => (RC_E_INTERNAL, false)
    | some _ => (env.tisResult, true)
  else (RC_E_INTERNAL, false)

/-- C8.  NULL/zero-size required arguments are rejected locally with the
parameter error, before any module interaction: `TSS_TPM_GetTestResult`
with NULL output pointers returns `RC_E_BAD_PARAMETER` without
transmitting; `TPMIO_Transmit` with a NULL buffer returns
`RC_E_BAD_PARAMETER` without touching the device; `SetImage` with a
NULL protocol pointer, `GetImageInfo` with a NULL size pointer,
`GetInformationCounters` with a NULL block pointer, and
`CheckImageInternal` with a NULL image or zero size all return
`EFI_INVALID_PARAMETER` before `InitializeTpmAccess` and issue no
call. -/
theorem null_parameters_fail_locally :
    (∀ capacity env, tssTPM_GetTestResult true capacity env =
      ⟨RC_E_BAD_PARAMETER, false, 0, none⟩) ∧
    (∀ env, tpmioTransmit true env = (RC_E_BAD_PARAMETER, false)) ∧
    (∀ imageIndex imageNull imageSize vendorCodeNull env,
      setImage true imageIndex imageNull imageSize vendorCodeNull env =
        ⟨EFI_INVALID_PARAMETER, []⟩) ∧
    (∀ sizeIn imageInfoNull otherPtrsNull env,
      getImageInfo true true sizeIn imageInfoNull otherPtrsNull env =
        ⟨EFI_INVALID_PARAMETER, sizeIn, none, false⟩) ∧
    (∀ env, getInformationCounters true env = (EFI_INVALID_PARAMETER, none)) ∧
    (∀ imageSize outPtr outcome,
      checkImageInternal true imageSize outPtr outcome =
        ⟨EFI_INVALID_PARAMETER, none⟩) ∧
    (∀ outcome outPtr, checkImageInternal false 0 outPtr outcome =
        ⟨EFI_INVALID_PARAMETER, none⟩) := by
  refine ⟨?_, ?_, ?_, ?_, ?_, ?_, ?_⟩
  · intro capacity env
    unfold tssTPM_GetTestResult
    rw [if_pos rfl]
  · intro env
    unfold tpmioTransmit
    rw [if_pos rfl]
  · intro imageIndex imageNull imageSize vendorCodeNull env
    unfold setImage
    rw [if_pos (Or.inl rfl)]
  · intro sizeIn imageInfoNull otherPtrsNull env
    unfold getImageInfo
    rw [if_pos (Or.inl rfl)]
  · intro env
    unfold getInformationCounters
    rw [if_pos rfl]
  · intro imageSize outPtr outcome
    unfold checkImageInternal
    rw [if_pos (Or.inl rfl)]
  · intro outcome outPtr
    unfold checkImageInternal
    rw [if_pos (Or.inr rfl)]

end IFXTPMUpdate
